import Mathlib

/-!
# go-producthunt: extraction of Products from GraphQL responses

A shallow embedding of `ph.go`. The five operations of `ProductHunt`
(`GetDaily`, `GetProductDetails`, `GetPostsByTopic`, `GetTopProductsByDate`,
`GetProductsByRankByDate`) build a query string, hand it to `fetchData`, and
walk the decoded JSON (`map[string]interface{}`) with guarded type assertions.

Modelling decisions.
* A decoded JSON value (Go `interface{}` as produced by `encoding/json`) is the
  inductive type `JSON`. A Go map is an association list read by first match;
  a nil map and an empty map index alike, so both are `[]`.
* `fmt.Sprintf("%v", v)` is `sprintV`. The text of a `float64` is left to the
  parameter `fmtFloat` (the shortest `%g` rendering of the Go runtime); all
  other cases are written out.
* `fetchData` performs the HTTP exchange; it is a parameter of each operation,
  threaded through an explicit world state `W`.
* Go's `(value, error)` results are pairs whose second component is an
  `Option GoError` (`none` is a nil error). A nil slice is `[]`, a nil
  `*Product` is `none`.
* The lines after the transport call are embedded a second time
  (`*_extract_checked`) in `Except Panic`, with the form of every type
  assertion written out and nil maps kept apart from empty ones, to state
  that no run ends in a panic.
-/

namespace Producthunt

/-! ## Data model -/

/-- The `Product` struct of `ph.go`; the zero value has every field empty. -/
structure Product where
  ID : String := ""
  Name : String := ""
  Tagline : String := ""
  Slug : String := ""
  Description : String := ""
  Website : String := ""
  URL : String := ""
  Thumbnail : String := ""
  deriving DecidableEq, Repr

/-- The `ProductHunt` struct of `ph.go`. -/
structure ProductHunt where
  APIKey : String
  deriving DecidableEq, Repr

/-- A `float64`, carried as its IEEE-754 bit pattern. -/
abbrev Float64 := Nat

/-- A value decoded by `encoding/json` into `interface{}`: nil, bool, float64,
string, `[]interface{}` or `map[string]interface{}`. -/
inductive JSON where
  | null : JSON
  | bool (b : Bool) : JSON
  | num (f : Float64) : JSON
  | str (s : String) : JSON
  | arr (xs : List JSON) : JSON
  | obj (kvs : List (String × JSON)) : JSON
  deriving Repr

/-- A Go `map[string]interface{}`, as an association list read by first match. -/
abbrev GoMap := List (String × JSON)

/-- Go `error` values: those made by `fmt.Errorf` in `ph.go`, and those that
come out of the transport (`net/http`, `encoding/json`, `io/ioutil`). -/
inductive GoError where
  | errorf (msg : String) : GoError
  | transport (msg : String) : GoError
  deriving DecidableEq, Repr

/-- The two-valued map index `v, exists := m[k]`. -/
def mapGet (m : GoMap) (k : String) : Option JSON :=
  List.lookup k m

/-- The one-valued map index `m[k]`: the nil interface when `k` is absent. -/
def mapIndex (m : GoMap) (k : String) : JSON :=
  (mapGet m k).getD JSON.null

/-- The type assertion `v.(map[string]interface{})`. -/
def asMap : JSON → Option GoMap
  | JSON.obj kvs => some kvs
  | _ => none

/-- The type assertion `v.([]interface{})`. -/
def asSlice : JSON → Option (List JSON)
  | JSON.arr xs => some xs
  | _ => none

/-! ## `fmt.Sprintf("%v", v)` -/

/-- Insert one rendered map entry into a list of entries sorted by key; an
entry with the same key is replaced. -/
def insertEntry (k : String) (s : String) : List (String × String) → List (String × String)
  | [] => [(k, s)]
  | (k2, s2) :: rest =>
    if k = k2 then (k, s) :: rest
    else if k < k2 then (k, s) :: (k2, s2) :: rest
    else (k2, s2) :: insertEntry k s rest

/-- The entries of a map in the order `fmt` prints them: sorted by key. The
first binding of a key in the association list is the one that counts. -/
def sortedEntries (kvs : List (String × String)) : List (String × String) :=
  kvs.foldr (fun kv acc => insertEntry kv.1 kv.2 acc) []

mutual
/-- The text `fmt.Sprintf("%v", v)` gives for a decoded JSON value: `<nil>`
for nil, `true`/`false`, the `%g` text of a float, a string as it is,
`[a b c]` for a slice and `map[k:v k:v]` (keys sorted) for a map. -/
def sprintV (fmtFloat : Float64 → String) : JSON → String
  | JSON.null => "<nil>"
  | JSON.bool b => if b then "true" else "false"
  | JSON.num f => fmtFloat f
  | JSON.str s => s
  | JSON.arr xs => "[" ++ " ".intercalate (sprintVList fmtFloat xs) ++ "]"
  | JSON.obj kvs =>
    "map[" ++ " ".intercalate
      ((sortedEntries (sprintVEntries fmtFloat kvs)).map fun e => e.1 ++ ":" ++ e.2) ++ "]"
/-- The elements of a slice, each rendered by `sprintV`. -/
def sprintVList (fmtFloat : Float64 → String) : List JSON → List String
  | [] => []
  | x :: xs => sprintV fmtFloat x :: sprintVList fmtFloat xs
/-- The entries of a map, each value rendered by `sprintV`. -/
def sprintVEntries (fmtFloat : Float64 → String) : List (String × JSON) → List (String × String)
  | [] => []
  | (k, v) :: kvs => (k, sprintV fmtFloat v) :: sprintVEntries fmtFloat kvs
end

/-- The text of `fmt.Sprintf("%d", n)` for an `int`. -/
def sprintD (n : Int) : String := toString n

/-! ## The transport -/

/-- The signature of `fetchData(query, apiKey)`: a decoded top-level map and
an error, with the effect on the outside world made explicit. -/
abbrev Fetch (W : Type) := String → String → W → (GoMap × Option GoError) × W

/-! ## `GetDaily` (ph.go 60-110) -/

/-- The query of `GetDaily` (ph.go 61-73). -/
def GetDaily_query : String :=
  "\n" ++
  "    query \x7b\n" ++
  "      posts(order: NEWEST, first: 10) \x7b\n" ++
  "        edges \x7b\n" ++
  "          node \x7b\n" ++
  "            id\n" ++
  "            name\n" ++
  "            tagline\n" ++
  "          \x7d\n" ++
  "        \x7d\n" ++
  "      \x7d\n" ++
  "    \x7d\n" ++
  "    "

/-- The struct literal of ph.go 102-106. -/
def GetDaily_product (fmtFloat : Float64 → String) (node : GoMap) : Product :=
  { ID := sprintV fmtFloat (mapIndex node "id"),
    Name := sprintV fmtFloat (mapIndex node "name"),
    Tagline := sprintV fmtFloat (mapIndex node "tagline") }

/-- The loop of ph.go 93-108 over the remaining edges, `products` being the
slice collected so far. -/
def GetDaily_loop (fmtFloat : Float64 → String) : List JSON → List Product → List Product
  | [], products => products
  | edge :: edges, products =>
    match asMap edge with
    | none => GetDaily_loop fmtFloat edges products
    | some edgeMap =>
      match asMap (mapIndex edgeMap "node") with
      | none => GetDaily_loop fmtFloat edges products
      | some node =>
        GetDaily_loop fmtFloat edges (products ++ [GetDaily_product fmtFloat node])

/-- The part of `GetDaily` after the transport call (ph.go 79-109). -/
def GetDaily_extract (fmtFloat : Float64 → String) (data : GoMap) :
    List Product × Option GoError :=
  let products : List Product := []
  match asMap (mapIndex data "data") with
  | none => (products, some (GoError.errorf "invalid response format: missing 'data'"))
  | some dataMap =>
    match asMap (mapIndex dataMap "posts") with
    | none => (products, some (GoError.errorf "invalid response format: missing 'posts'"))
    | some posts =>
      match asSlice (mapIndex posts "edges") with
      | none => (products, some (GoError.errorf "invalid response format: missing 'edges'"))
      | some edges => (GetDaily_loop fmtFloat edges products, none)

/-- The operation `GetDaily` (ph.go 60-110). -/
def GetDaily {W : Type} (fmtFloat : Float64 → String) (fetchData : Fetch W)
    (ph : ProductHunt) (w : W) : (List Product × Option GoError) × W :=
  match fetchData GetDaily_query ph.APIKey w with
  | ((_, some err), w1) => (([], some err), w1)
  | ((data, none), w1) => (GetDaily_extract fmtFloat data, w1)

/-! ## `GetProductDetails` (ph.go 112-143) -/

/-- The query of `GetProductDetails` (ph.go 113-122). -/
def GetProductDetails_query (slug : String) : String :=
  "\n" ++
  "    query \x7b\n" ++
  "      post(slug: \"" ++ slug ++ "\") \x7b\n" ++
  "        name\n" ++
  "        tagline\n" ++
  "        description\n" ++
  "        website\n" ++
  "      \x7d\n" ++
  "    \x7d\n" ++
  "    "

/-- The struct literal of ph.go 136-141. -/
def GetProductDetails_product (fmtFloat : Float64 → String) (post : GoMap) : Product :=
  { Name := sprintV fmtFloat (mapIndex post "name"),
    Tagline := sprintV fmtFloat (mapIndex post "tagline"),
    Description := sprintV fmtFloat (mapIndex post "description"),
    Website := sprintV fmtFloat (mapIndex post "website") }

/-- The part of `GetProductDetails` after the transport call (ph.go 127-142).
A value decoded from JSON is never a nil map inside an interface, so the
`post == nil` disjunct of ph.go 132 adds nothing to the failed assertion. -/
def GetProductDetails_extract (fmtFloat : Float64 → String) (data : GoMap) :
    Option Product × Option GoError :=
  match asMap (mapIndex data "data") with
  | none => (none, some (GoError.errorf "invalid response format: missing 'data'"))
  | some dataMap =>
    match asMap (mapIndex dataMap "post") with
    | none => (none, none)
    | some post => (some (GetProductDetails_product fmtFloat post), none)

/-- The operation `GetProductDetails` (ph.go 112-143). -/
def GetProductDetails {W : Type} (fmtFloat : Float64 → String) (fetchData : Fetch W)
    (ph : ProductHunt) (slug : String) (w : W) : (Option Product × Option GoError) × W :=
  match fetchData (GetProductDetails_query slug) ph.APIKey w with
  | ((_, some err), w1) => ((none, some err), w1)
  | ((data, none), w1) => (GetProductDetails_extract fmtFloat data, w1)

/-! ## `GetPostsByTopic` (ph.go 145-213) -/

/-- The query of `GetPostsByTopic` (ph.go 146-165). -/
def GetPostsByTopic_query (topic : String) : String :=
  "\n" ++
  "    query \x7b\n" ++
  "      posts(order: NEWEST, first: 99, topic: \"" ++ topic ++ "\") \x7b\n" ++
  "        edges \x7b\n" ++
  "          node \x7b\n" ++
  "            id\n" ++
  "            name\n" ++
  "            slug\n" ++
  "            tagline\n" ++
  "            description\n" ++
  "            website\n" ++
  "            url\n" ++
  "            thumbnail \x7b\n" ++
  "              url\n" ++
  "            \x7d\n" ++
  "          \x7d\n" ++
  "        \x7d\n" ++
  "      \x7d\n" ++
  "    \x7d\n" ++
  "    "

/-- The value of `thumbnailUrl` after ph.go 194-199. -/
def GetPostsByTopic_thumbnailUrl (fmtFloat : Float64 → String) (node : GoMap) : String :=
  match mapGet node "thumbnail" with
  | none => ""
  | some thumb =>
    match asMap thumb with
    | none => ""
    | some thumbMap => sprintV fmtFloat (mapIndex thumbMap "url")

/-- The struct literal of ph.go 200-209. -/
def GetPostsByTopic_product (fmtFloat : Float64 → String) (node : GoMap) : Product :=
  { ID := sprintV fmtFloat (mapIndex node "id"),
    Name := sprintV fmtFloat (mapIndex node "name"),
    Slug := sprintV fmtFloat (mapIndex node "slug"),
    Tagline := sprintV fmtFloat (mapIndex node "tagline"),
    Description := sprintV fmtFloat (mapIndex node "description"),
    Website := sprintV fmtFloat (mapIndex node "website"),
    URL := sprintV fmtFloat (mapIndex node "url"),
    Thumbnail := GetPostsByTopic_thumbnailUrl fmtFloat node }

/-- The loop of ph.go 184-211. -/
def GetPostsByTopic_loop (fmtFloat : Float64 → String) : List JSON → List Product → List Product
  | [], products => products
  | edge :: edges, products =>
    match asMap edge with
    | none => GetPostsByTopic_loop fmtFloat edges products
    | some edgeMap =>
      match asMap (mapIndex edgeMap "node") with
      | none => GetPostsByTopic_loop fmtFloat edges products
      | some node =>
        GetPostsByTopic_loop fmtFloat edges (products ++ [GetPostsByTopic_product fmtFloat node])

/-- The part of `GetPostsByTopic` after the transport call (ph.go 170-212). -/
def GetPostsByTopic_extract (fmtFloat : Float64 → String) (data : GoMap) :
    List Product × Option GoError :=
  let products : List Product := []
  match asMap (mapIndex data "data") with
  | none => (products, some (GoError.errorf "invalid response format: missing 'data'"))
  | some dataMap =>
    match asMap (mapIndex dataMap "posts") with
    | none => (products, some (GoError.errorf "invalid response format: missing 'posts'"))
    | some posts =>
      match asSlice (mapIndex posts "edges") with
      | none => (products, some (GoError.errorf "invalid response format: missing 'edges'"))
      | some edges => (GetPostsByTopic_loop fmtFloat edges products, none)

/-- The operation `GetPostsByTopic` (ph.go 145-213). -/
def GetPostsByTopic {W : Type} (fmtFloat : Float64 → String) (fetchData : Fetch W)
    (ph : ProductHunt) (topic : String) (w : W) : (List Product × Option GoError) × W :=
  match fetchData (GetPostsByTopic_query topic) ph.APIKey w with
  | ((_, some err), w1) => (([], some err), w1)
  | ((data, none), w1) => (GetPostsByTopic_extract fmtFloat data, w1)

/-! ## `GetTopProductsByDate` (ph.go 215-265) -/

/-- The query of `GetTopProductsByDate` (ph.go 216-230). -/
def GetTopProductsByDate_query (date : String) : String :=
  "\n" ++
  "    query \x7b\n" ++
  "      posts(order: RANKING, postedAfter: \"" ++ date ++ "T00:00:00Z\", postedBefore: \"" ++ date ++ "T23:59:59Z\", first: 5) \x7b\n" ++
  "        edges \x7b\n" ++
  "          node \x7b\n" ++
  "            id\n" ++
  "            name\n" ++
  "            tagline\n" ++
  "            description\n" ++
  "            website\n" ++
  "          \x7d\n" ++
  "        \x7d\n" ++
  "      \x7d\n" ++
  "    \x7d\n" ++
  "    "

/-- The struct literal of ph.go 257-261. -/
def GetTopProductsByDate_product (fmtFloat : Float64 → String) (node : GoMap) : Product :=
  { ID := sprintV fmtFloat (mapIndex node "id"),
    Name := sprintV fmtFloat (mapIndex node "name"),
    Tagline := sprintV fmtFloat (mapIndex node "tagline") }

/-- The loop of ph.go 248-263. -/
def GetTopProductsByDate_loop (fmtFloat : Float64 → String) :
    List JSON → List Product → List Product
  | [], products => products
  | edge :: edges, products =>
    match asMap edge with
    | none => GetTopProductsByDate_loop fmtFloat edges products
    | some edgeMap =>
      match asMap (mapIndex edgeMap "node") with
      | none => GetTopProductsByDate_loop fmtFloat edges products
      | some node =>
        GetTopProductsByDate_loop fmtFloat edges
          (products ++ [GetTopProductsByDate_product fmtFloat node])

/-- The part of `GetTopProductsByDate` after the transport call (ph.go 235-264). -/
def GetTopProductsByDate_extract (fmtFloat : Float64 → String) (data : GoMap) :
    List Product × Option GoError :=
  let products : List Product := []
  match asMap (mapIndex data "data") with
  | none => (products, some (GoError.errorf "invalid response format: missing 'data'"))
  | some dataMap =>
    match asMap (mapIndex dataMap "posts") with
    | none => (products, some (GoError.errorf "invalid response format: missing 'posts'"))
    | some posts =>
      match asSlice (mapIndex posts "edges") with
      | none => (products, some (GoError.errorf "invalid response format: missing 'edges'"))
      | some edges => (GetTopProductsByDate_loop fmtFloat edges products, none)

/-- The operation `GetTopProductsByDate` (ph.go 215-265). -/
def GetTopProductsByDate {W : Type} (fmtFloat : Float64 → String) (fetchData : Fetch W)
    (ph : ProductHunt) (date : String) (w : W) : (List Product × Option GoError) × W :=
  match fetchData (GetTopProductsByDate_query date) ph.APIKey w with
  | ((_, some err), w1) => (([], some err), w1)
  | ((data, none), w1) => (GetTopProductsByDate_extract fmtFloat data, w1)

/-! ## `GetProductsByRankByDate` (ph.go 267-329) -/

/-- The query of `GetProductsByRankByDate` (ph.go 268-285). -/
def GetProductsByRankByDate_query (date : String) (limit : Int) : String :=
  let postedAfter := date ++ "T00:00:00Z"
  let postedBefore := date ++ "T23:59:59Z"
  "\n" ++
  "\tquery \x7b\n" ++
  "\t  posts(order: RANKING, postedAfter: \"" ++ postedAfter ++ "\", postedBefore: \"" ++ postedBefore ++ "\", first: " ++ sprintD limit ++ ") \x7b\n" ++
  "\t    edges \x7b\n" ++
  "\t      node \x7b\n" ++
  "\t        id\n" ++
  "\t        name\n" ++
  "\t        tagline\n" ++
  "\t        description\n" ++
  "\t        website\n" ++
  "\t\t\turl\n" ++
  "\t      \x7d\n" ++
  "\t    \x7d\n" ++
  "\t  \x7d\n" ++
  "\t\x7d"

/-- The struct literal of ph.go 317-324. -/
def GetProductsByRankByDate_product (fmtFloat : Float64 → String) (node : GoMap) : Product :=
  { ID := sprintV fmtFloat (mapIndex node "id"),
    Name := sprintV fmtFloat (mapIndex node "name"),
    Tagline := sprintV fmtFloat (mapIndex node "tagline"),
    Description := sprintV fmtFloat (mapIndex node "description"),
    Website := sprintV fmtFloat (mapIndex node "website"),
    URL := sprintV fmtFloat (mapIndex node "url") }

/-- The loop of ph.go 308-326. -/
def GetProductsByRankByDate_loop (fmtFloat : Float64 → String) :
    List JSON → List Product → List Product
  | [], products => products
  | edge :: edges, products =>
    match asMap edge with
    | none => GetProductsByRankByDate_loop fmtFloat edges products
    | some edgeMap =>
      match asMap (mapIndex edgeMap "node") with
      | none => GetProductsByRankByDate_loop fmtFloat edges products
      | some node =>
        GetProductsByRankByDate_loop fmtFloat edges
          (products ++ [GetProductsByRankByDate_product fmtFloat node])

/-- The part of `GetProductsByRankByDate` after the transport call (ph.go 292-328). -/
def GetProductsByRankByDate_extract (fmtFloat : Float64 → String) (data : GoMap) :
    List Product × Option GoError :=
  let products : List Product := []
  match asMap (mapIndex data "data") with
  | none => (products, some (GoError.errorf "invalid response format: missing 'data'"))
  | some dataMap =>
    match asMap (mapIndex dataMap "posts") with
    | none => (products, some (GoError.errorf "invalid response format: missing 'posts'"))
    | some posts =>
      match asSlice (mapIndex posts "edges") with
      | none => (products, some (GoError.errorf "invalid response format: missing 'edges'"))
      | some edges => (GetProductsByRankByDate_loop fmtFloat edges products, none)

/-- The operation `GetProductsByRankByDate` (ph.go 267-329). -/
def GetProductsByRankByDate {W : Type} (fmtFloat : Float64 → String) (fetchData : Fetch W)
    (ph : ProductHunt) (date : String) (limit : Int) (w : W) :
    (List Product × Option GoError) × W :=
  match fetchData (GetProductsByRankByDate_query date limit) ph.APIKey w with
  | ((_, some err), w1) => (([], some err), w1)
  | ((data, none), w1) => (GetProductsByRankByDate_extract fmtFloat data, w1)

/-! ## Vocabulary of the specification -/

/-- The `data` member of a response, when it is a mapping. -/
def dataOf (data : GoMap) : Option GoMap :=
  asMap (mapIndex data "data")

/-- The mapping `data.posts` of a response, when the path leads to one. -/
def postsOf (data : GoMap) : Option GoMap :=
  (dataOf data).bind fun dataMap => asMap (mapIndex dataMap "posts")

/-- The list `data.posts.edges` of a response, when the path leads to one. -/
def edgesOf (data : GoMap) : Option (List JSON) :=
  (postsOf data).bind fun posts => asSlice (mapIndex posts "edges")

/-- The node of a well-formed edge: the edge is a mapping and its `node` is a
mapping. Every other edge (not a mapping; `node` absent, null or of another
type) is malformed and has none. -/
def edgeNode (edge : JSON) : Option GoMap :=
  (asMap edge).bind fun edgeMap => asMap (mapIndex edgeMap "node")

/-- The Products a list of edges stands for under a given way of building one
Product from one node: one per well-formed edge, in edge order. -/
def productsOf (build : GoMap → Product) (edges : List JSON) : List Product :=
  edges.filterMap fun edge => (edgeNode edge).map build

/-- The outcome of a list operation on `edges` agrees with the edges one by
one: as many Products as edges, and the Product at the position of a
well-formed edge is the one built from that edge's node. -/
def BuiltInEdgeOrder (build : GoMap → Product) (edges : List JSON)
    (products : List Product) : Prop :=
  products.length = edges.length
    ∧ ∀ (i : Nat) (edgeMap node : GoMap), edges[i]? = some (JSON.obj edgeMap) →
        mapIndex edgeMap "node" = JSON.obj node → products[i]? = some (build node)

/-- The segment of the path `data`, `posts`, `edges` at which a response first
fails to have the expected shape (mapping, mapping, list), if there is one. -/
def firstMissing (data : GoMap) : Option String :=
  if (dataOf data).isNone then some "data"
  else if (postsOf data).isNone then some "posts"
  else if (edgesOf data).isNone then some "edges"
  else none

/-- The eight fields of a `Product`. -/
inductive Field where
  | id : Field
  | name : Field
  | tagline : Field
  | slug : Field
  | description : Field
  | website : Field
  | url : Field
  | thumbnail : Field
  deriving DecidableEq, Repr

/-- The value a Product has in a field. -/
def Product.get (p : Product) : Field → String
  | Field.id => p.ID
  | Field.name => p.Name
  | Field.tagline => p.Tagline
  | Field.slug => p.Slug
  | Field.description => p.Description
  | Field.website => p.Website
  | Field.url => p.URL
  | Field.thumbnail => p.Thumbnail

/-- The raw JSON value a field is read from in a node (or in `post`): the
member of the same name, and for the thumbnail the member `url` of the node's
`thumbnail` mapping. There is none when the member is absent. -/
def rawField (node : GoMap) : Field → Option JSON
  | Field.id => mapGet node "id"
  | Field.name => mapGet node "name"
  | Field.tagline => mapGet node "tagline"
  | Field.slug => mapGet node "slug"
  | Field.description => mapGet node "description"
  | Field.website => mapGet node "website"
  | Field.url => mapGet node "url"
  | Field.thumbnail =>
    ((mapGet node "thumbnail").bind asMap).bind fun thumbMap => mapGet thumbMap "url"

/-- The five operations. -/
inductive Op where
  | daily : Op
  | details : Op
  | byTopic : Op
  | topByDate : Op
  | rankByDate : Op
  deriving DecidableEq, Repr

/-- The field set of each operation: the fields its Products are given. -/
def Op.fields : Op → List Field
  | Op.daily => [Field.id, Field.name, Field.tagline]
  | Op.details => [Field.name, Field.tagline, Field.description, Field.website]
  | Op.byTopic => [Field.id, Field.name, Field.tagline, Field.slug, Field.description,
      Field.website, Field.url, Field.thumbnail]
  | Op.topByDate => [Field.id, Field.name, Field.tagline]
  | Op.rankByDate => [Field.id, Field.name, Field.tagline, Field.description, Field.website,
      Field.url]

/-- The struct literal with which an operation builds a Product from a node
(from `post` for `GetProductDetails`). -/
def Op.product (fmtFloat : Float64 → String) : Op → GoMap → Product
  | Op.daily => GetDaily_product fmtFloat
  | Op.details => GetProductDetails_product fmtFloat
  | Op.byTopic => GetPostsByTopic_product fmtFloat
  | Op.topByDate => GetTopProductsByDate_product fmtFloat
  | Op.rankByDate => GetProductsByRankByDate_product fmtFloat

/-- The query an operation sends, `arg` being its string parameter (slug,
topic or date) and `limit` the limit of `GetProductsByRankByDate`. -/
def Op.query (arg : String) (limit : Int) : Op → String
  | Op.daily => GetDaily_query
  | Op.details => GetProductDetails_query arg
  | Op.byTopic => GetPostsByTopic_query arg
  | Op.topByDate => GetTopProductsByDate_query arg
  | Op.rankByDate => GetProductsByRankByDate_query arg limit

/-- The five operations under one signature: the Product of `GetProductDetails`,
if any, is given as a list of one. -/
def Op.run {W : Type} (fmtFloat : Float64 → String) (fetchData : Fetch W) (ph : ProductHunt)
    (arg : String) (limit : Int) : Op → W → (List Product × Option GoError) × W
  | Op.daily, w => GetDaily fmtFloat fetchData ph w
  | Op.details, w =>
    ((((GetProductDetails fmtFloat fetchData ph arg w).1.1).toList,
      (GetProductDetails fmtFloat fetchData ph arg w).1.2),
      (GetProductDetails fmtFloat fetchData ph arg w).2)
  | Op.byTopic, w => GetPostsByTopic fmtFloat fetchData ph arg w
  | Op.topByDate, w => GetTopProductsByDate fmtFloat fetchData ph arg w
  | Op.rankByDate, w => GetProductsByRankByDate fmtFloat fetchData ph arg limit w

/-- The records a response holds for an operation: the nodes of the
well-formed edges of `data.posts.edges`, and for `GetProductDetails` the
mapping `data.post`. -/
def Op.records : Op → GoMap → List GoMap
  | Op.details, data => ((dataOf data).bind fun dataMap => asMap (mapIndex dataMap "post")).toList
  | _, data => ((edgesOf data).getD []).filterMap edgeNode

/-! ## Sample inputs -/

/-- A transport that answers every query with the response `data` and a nil
error, and leaves the world as it is. -/
def respond (data : GoMap) : Fetch Unit :=
  fun _ _ w => ((data, none), w)

/-- The response `{"data":{"posts":{"edges": edges}}}`. -/
def envelope (edges : List JSON) : GoMap :=
  [("data", JSON.obj [("posts", JSON.obj [("edges", JSON.arr edges)])])]

/-- The node `{"id":"1","name":"A","tagline":"t"}`. -/
def sampleNode : GoMap :=
  [("id", JSON.str "1"), ("name", JSON.str "A"), ("tagline", JSON.str "t")]

/-- The edge `{"node":{"id":"1","name":"A","tagline":"t"}}`. -/
def sampleEdge : JSON :=
  JSON.obj [("node", JSON.obj sampleNode)]

/-- The edges `[{"node":{"id":"1","name":"A","tagline":"t"}},{"node":null}]`. -/
def sampleEdges : List JSON :=
  [sampleEdge, JSON.obj [("node", JSON.null)]]

/-- The edges `[{"node":{"id":"1","name":"A","tagline":"t"}},{"node":{"id":"2"}}]`. -/
def twoEdges : List JSON :=
  [sampleEdge, JSON.obj [("node", JSON.obj [("id", JSON.str "2")])]]

/-- The node `{"id":"7","thumbnail":{"url":null}}`. -/
def nullThumbNode : GoMap :=
  [("id", JSON.str "7"), ("thumbnail", JSON.obj [("url", JSON.null)])]

/-- The post `{"name":"","website":" \"x\" "}`. -/
def emptyNamePost : GoMap :=
  [("name", JSON.str ""), ("website", JSON.str " \"x\" ")]

/-- A node with all eight members: `{"id":"1","name":"A","tagline":"t","slug":"a",
"description":"d","website":"w","url":"u","thumbnail":{"url":"i"}}`. -/
def fullNode : GoMap :=
  [("id", JSON.str "1"), ("name", JSON.str "A"), ("tagline", JSON.str "t"),
   ("slug", JSON.str "a"), ("description", JSON.str "d"), ("website", JSON.str "w"),
   ("url", JSON.str "u"), ("thumbnail", JSON.obj [("url", JSON.str "i")])]

/-- A client with some API key. -/
def sampleClient : ProductHunt :=
  ProductHunt.mk "key"

/-- A rendering of floats for the sample inputs, in which no number is ever
rendered. -/
def sampleFmtFloat : Float64 → String :=
  fun _ => "0"


/-- A transport that answers each call by `answer` and writes the call, its
query and API key, at the end of the world, which is the log of the calls made
so far. -/
def recording (answer : String → String → GoMap × Option GoError) :
    Fetch (List (String × String)) :=
  fun query apiKey log => (answer query apiKey, log ++ [(query, apiKey)])

/-- An answer for `recording`: the transport error `msg` and a nil map,
whatever the query. -/
def answerError (msg : String) : String → String → GoMap × Option GoError :=
  fun _ _ => ([], some (GoError.transport msg))

/-! ## The extraction with the run-time failures of Go made explicit

A second embedding of the code after the transport call (ph.go 79-109,
127-142, 170-212, 235-264, 292-328) in which a run of the program can end in
a panic. The only operation of these lines that Go lets fail is the type
assertion: `x := v.(T)` panics when `v` does not hold a `T`, while
`x, ok := v.(T)` gives the zero value of `T` and `false`. Indexing a map, also
a nil one, ranging over a slice, `append` and `fmt.Sprintf` do not fail. Here
a map variable is an `Option GoMap`, `none` being the nil map. -/

/-- A run-time panic of the Go program: the failed type assertion
("interface conversion"). -/
inductive Panic where
  | interfaceConversion : Panic
  deriving DecidableEq, Repr

/-- The two forms of a type assertion: `x := v.(T)` and `x, ok := v.(T)`. -/
inductive AssertForm where
  | single : AssertForm
  | commaOk : AssertForm
  deriving DecidableEq, Repr

/-- The type assertion to `map[string]interface{}` in either form. A failed
assertion panics in the single form and gives the nil map and `false` in the
comma-ok form. -/
def typeAssertMap (form : AssertForm) (v : JSON) : Except Panic (Option GoMap × Bool) :=
  match asMap v, form with
  | some m, _ => pure (some m, true)
  | none, AssertForm.commaOk => pure (none, false)
  | none, AssertForm.single => throw Panic.interfaceConversion

/-- The type assertion to `[]interface{}` in either form; the nil slice is `[]`. -/
def typeAssertSlice (form : AssertForm) (v : JSON) : Except Panic (List JSON × Bool) :=
  match asSlice v, form with
  | some xs, _ => pure (xs, true)
  | none, AssertForm.commaOk => pure ([], false)
  | none, AssertForm.single => throw Panic.interfaceConversion

/-- The two-valued index `v, exists := m[k]` of a map that may be nil: a nil
map has no key, and reading it does not panic. -/
def nilableGet (m : Option GoMap) (k : String) : Option JSON :=
  match m with
  | none => none
  | some kvs => mapGet kvs k

/-- The one-valued index `m[k]` of a map that may be nil: the nil interface
when the key is absent or the map is nil. -/
def nilableIndex (m : Option GoMap) (k : String) : JSON :=
  (nilableGet m k).getD JSON.null

/-- The struct literal of ph.go 102-106, read from a map that may be nil. -/
def GetDaily_product_checked (fmtFloat : Float64 → String)
    (node : Option GoMap) : Product :=
  { ID := sprintV fmtFloat (nilableIndex node "id"),
    Name := sprintV fmtFloat (nilableIndex node "name"),
    Tagline := sprintV fmtFloat (nilableIndex node "tagline") }

/-- The loop of ph.go 93-108, each assertion in the comma-ok form of the source. -/
def GetDaily_loop_checked (fmtFloat : Float64 → String) :
    List JSON → List Product → Except Panic (List Product)
  | [], products => pure products
  | edge :: edges, products => do
    let (edgeMap, ok) ← typeAssertMap AssertForm.commaOk edge
    if !ok then
      GetDaily_loop_checked fmtFloat edges products
    else do
      let (node, ok) ← typeAssertMap AssertForm.commaOk (nilableIndex edgeMap "node")
      if !ok then
        GetDaily_loop_checked fmtFloat edges products
      else
        GetDaily_loop_checked fmtFloat edges
          (products ++ [GetDaily_product_checked fmtFloat node])

/-- The lines ph.go 79-109 of `GetDaily`, `data` being the map the transport returned
(`none` for a nil map), each assertion in the comma-ok form of the source. -/
def GetDaily_extract_checked (fmtFloat : Float64 → String) (data : Option GoMap) :
    Except Panic (List Product × Option GoError) := do
  let products : List Product := []
  let (dataMap, ok) ← typeAssertMap AssertForm.commaOk (nilableIndex data "data")
  if !ok then
    pure (products, some (GoError.errorf "invalid response format: missing 'data'"))
  else do
    let (posts, ok) ← typeAssertMap AssertForm.commaOk (nilableIndex dataMap "posts")
    if !ok then
      pure (products, some (GoError.errorf "invalid response format: missing 'posts'"))
    else do
      let (edges, ok) ← typeAssertSlice AssertForm.commaOk (nilableIndex posts "edges")
      if !ok then
        pure (products, some (GoError.errorf "invalid response format: missing 'edges'"))
      else do
        let products ← GetDaily_loop_checked fmtFloat edges products
        pure (products, none)

/-- The struct literal of ph.go 136-141, read from a map that may be nil. -/
def GetProductDetails_product_checked (fmtFloat : Float64 → String)
    (post : Option GoMap) : Product :=
  { Name := sprintV fmtFloat (nilableIndex post "name"),
    Tagline := sprintV fmtFloat (nilableIndex post "tagline"),
    Description := sprintV fmtFloat (nilableIndex post "description"),
    Website := sprintV fmtFloat (nilableIndex post "website") }

/-- The lines ph.go 127-142 of `GetProductDetails`, `data` being the map the
transport returned (`none` for a nil map), each assertion in the comma-ok form
of the source; `post == nil` is `post.isNone`. -/
def GetProductDetails_extract_checked (fmtFloat : Float64 → String) (data : Option GoMap) :
    Except Panic (Option Product × Option GoError) := do
  let (dataMap, ok) ← typeAssertMap AssertForm.commaOk (nilableIndex data "data")
  if !ok then
    pure (none, some (GoError.errorf "invalid response format: missing 'data'"))
  else do
    let (post, ok) ← typeAssertMap AssertForm.commaOk (nilableIndex dataMap "post")
    if !ok || post.isNone then
      pure (none, none)
    else
      pure (some (GetProductDetails_product_checked fmtFloat post), none)

/-- The value of `thumbnailUrl` after ph.go 194-199, the assertion in the
comma-ok form of the source. -/
def GetPostsByTopic_thumbnailUrl_checked (fmtFloat : Float64 → String) (node : Option GoMap) :
    Except Panic String :=
  match nilableGet node "thumbnail" with
  | none => pure ""
  | some thumb => do
    let (thumbMap, ok) ← typeAssertMap AssertForm.commaOk thumb
    if ok then
      pure (sprintV fmtFloat (nilableIndex thumbMap "url"))
    else
      pure ""

/-- The struct literal of ph.go 200-209, read from a map that may be nil. -/
def GetPostsByTopic_product_checked (fmtFloat : Float64 → String) (node : Option GoMap)
    (thumbnailUrl : String) : Product :=
  { ID := sprintV fmtFloat (nilableIndex node "id"),
    Name := sprintV fmtFloat (nilableIndex node "name"),
    Slug := sprintV fmtFloat (nilableIndex node "slug"),
    Tagline := sprintV fmtFloat (nilableIndex node "tagline"),
    Description := sprintV fmtFloat (nilableIndex node "description"),
    Website := sprintV fmtFloat (nilableIndex node "website"),
    URL := sprintV fmtFloat (nilableIndex node "url"),
    Thumbnail := thumbnailUrl }

/-- The loop of ph.go 184-211, each assertion in the comma-ok form of the source. -/
def GetPostsByTopic_loop_checked (fmtFloat : Float64 → String) :
    List JSON → List Product → Except Panic (List Product)
  | [], products => pure products
  | edge :: edges, products => do
    let (edgeMap, ok) ← typeAssertMap AssertForm.commaOk edge
    if !ok then
      GetPostsByTopic_loop_checked fmtFloat edges products
    else do
      let (node, ok) ← typeAssertMap AssertForm.commaOk (nilableIndex edgeMap "node")
      if !ok then
        GetPostsByTopic_loop_checked fmtFloat edges products
      else do
        let thumbnailUrl ← GetPostsByTopic_thumbnailUrl_checked fmtFloat node
        GetPostsByTopic_loop_checked fmtFloat edges
          (products ++ [GetPostsByTopic_product_checked fmtFloat node thumbnailUrl])

/-- The lines ph.go 170-212 of `GetPostsByTopic`, `data` being the map the transport returned
(`none` for a nil map), each assertion in the comma-ok form of the source. -/
def GetPostsByTopic_extract_checked (fmtFloat : Float64 → String) (data : Option GoMap) :
    Except Panic (List Product × Option GoError) := do
  let products : List Product := []
  let (dataMap, ok) ← typeAssertMap AssertForm.commaOk (nilableIndex data "data")
  if !ok then
    pure (products, some (GoError.errorf "invalid response format: missing 'data'"))
  else do
    let (posts, ok) ← typeAssertMap AssertForm.commaOk (nilableIndex dataMap "posts")
    if !ok then
      pure (products, some (GoError.errorf "invalid response format: missing 'posts'"))
    else do
      let (edges, ok) ← typeAssertSlice AssertForm.commaOk (nilableIndex posts "edges")
      if !ok then
        pure (products, some (GoError.errorf "invalid response format: missing 'edges'"))
      else do
        let products ← GetPostsByTopic_loop_checked fmtFloat edges products
        pure (products, none)

/-- The struct literal of ph.go 257-261, read from a map that may be nil. -/
def GetTopProductsByDate_product_checked (fmtFloat : Float64 → String)
    (node : Option GoMap) : Product :=
  { ID := sprintV fmtFloat (nilableIndex node "id"),
    Name := sprintV fmtFloat (nilableIndex node "name"),
    Tagline := sprintV fmtFloat (nilableIndex node "tagline") }

/-- The loop of ph.go 248-263, each assertion in the comma-ok form of the source. -/
def GetTopProductsByDate_loop_checked (fmtFloat : Float64 → String) :
    List JSON → List Product → Except Panic (List Product)
  | [], products => pure products
  | edge :: edges, products => do
    let (edgeMap, ok) ← typeAssertMap AssertForm.commaOk edge
    if !ok then
      GetTopProductsByDate_loop_checked fmtFloat edges products
    else do
      let (node, ok) ← typeAssertMap AssertForm.commaOk (nilableIndex edgeMap "node")
      if !ok then
        GetTopProductsByDate_loop_checked fmtFloat edges products
      else
        GetTopProductsByDate_loop_checked fmtFloat edges
          (products ++ [GetTopProductsByDate_product_checked fmtFloat node])

/-- The lines ph.go 235-264 of `GetTopProductsByDate`, `data` being the map the transport returned
(`none` for a nil map), each assertion in the comma-ok form of the source. -/
def GetTopProductsByDate_extract_checked (fmtFloat : Float64 → String) (data : Option GoMap) :
    Except Panic (List Product × Option GoError) := do
  let products : List Product := []
  let (dataMap, ok) ← typeAssertMap AssertForm.commaOk (nilableIndex data "data")
  if !ok then
    pure (products, some (GoError.errorf "invalid response format: missing 'data'"))
  else do
    let (posts, ok) ← typeAssertMap AssertForm.commaOk (nilableIndex dataMap "posts")
    if !ok then
      pure (products, some (GoError.errorf "invalid response format: missing 'posts'"))
    else do
      let (edges, ok) ← typeAssertSlice AssertForm.commaOk (nilableIndex posts "edges")
      if !ok then
        pure (products, some (GoError.errorf "invalid response format: missing 'edges'"))
      else do
        let products ← GetTopProductsByDate_loop_checked fmtFloat edges products
        pure (products, none)

/-- The struct literal of ph.go 317-324, read from a map that may be nil. -/
def GetProductsByRankByDate_product_checked (fmtFloat : Float64 → String)
    (node : Option GoMap) : Product :=
  { ID := sprintV fmtFloat (nilableIndex node "id"),
    Name := sprintV fmtFloat (nilableIndex node "name"),
    Tagline := sprintV fmtFloat (nilableIndex node "tagline"),
    Description := sprintV fmtFloat (nilableIndex node "description"),
    Website := sprintV fmtFloat (nilableIndex node "website"),
    URL := sprintV fmtFloat (nilableIndex node "url") }

/-- The loop of ph.go 308-326, each assertion in the comma-ok form of the source. -/
def GetProductsByRankByDate_loop_checked (fmtFloat : Float64 → String) :
    List JSON → List Product → Except Panic (List Product)
  | [], products => pure products
  | edge :: edges, products => do
    let (edgeMap, ok) ← typeAssertMap AssertForm.commaOk edge
    if !ok then
      GetProductsByRankByDate_loop_checked fmtFloat edges products
    else do
      let (node, ok) ← typeAssertMap AssertForm.commaOk (nilableIndex edgeMap "node")
      if !ok then
        GetProductsByRankByDate_loop_checked fmtFloat edges products
      else
        GetProductsByRankByDate_loop_checked fmtFloat edges
          (products ++ [GetProductsByRankByDate_product_checked fmtFloat node])

/-- The lines ph.go 292-328 of `GetProductsByRankByDate`, `data` being the map the transport returned
(`none` for a nil map), each assertion in the comma-ok form of the source. -/
def GetProductsByRankByDate_extract_checked (fmtFloat : Float64 → String) (data : Option GoMap) :
    Except Panic (List Product × Option GoError) := do
  let products : List Product := []
  let (dataMap, ok) ← typeAssertMap AssertForm.commaOk (nilableIndex data "data")
  if !ok then
    pure (products, some (GoError.errorf "invalid response format: missing 'data'"))
  else do
    let (posts, ok) ← typeAssertMap AssertForm.commaOk (nilableIndex dataMap "posts")
    if !ok then
      pure (products, some (GoError.errorf "invalid response format: missing 'posts'"))
    else do
      let (edges, ok) ← typeAssertSlice AssertForm.commaOk (nilableIndex posts "edges")
      if !ok then
        pure (products, some (GoError.errorf "invalid response format: missing 'edges'"))
      else do
        let products ← GetProductsByRankByDate_loop_checked fmtFloat edges products
        pure (products, none)

/-- The edges `[7, {"node":"x"}, {"node":{"id":"1","name":"A","tagline":"t"}}]`. -/
def oddEdges : List JSON :=
  [JSON.num 7, JSON.obj [("node", JSON.str "x")], sampleEdge]

/-! ## The loops collect one Product per well-formed edge -/

theorem GetDaily_loop_eq (fmtFloat : Float64 → String) (edges : List JSON)
    (products : List Product) :
    GetDaily_loop fmtFloat edges products
      = products ++ productsOf (GetDaily_product fmtFloat) edges := by
  induction edges generalizing products with
  | nil => simp [GetDaily_loop, productsOf]
  | cons edge edges ih =>
    cases hm : asMap edge with
    | none => simp [GetDaily_loop, productsOf, edgeNode, hm, ih]
    | some edgeMap =>
      cases hn : asMap (mapIndex edgeMap "node") with
      | none => simp [GetDaily_loop, productsOf, edgeNode, hm, hn, ih]
      | some node => simp [GetDaily_loop, productsOf, edgeNode, hm, hn, ih]

theorem GetPostsByTopic_loop_eq (fmtFloat : Float64 → String) (edges : List JSON)
    (products : List Product) :
    GetPostsByTopic_loop fmtFloat edges products
      = products ++ productsOf (GetPostsByTopic_product fmtFloat) edges := by
  induction edges generalizing products with
  | nil => simp [GetPostsByTopic_loop, productsOf]
  | cons edge edges ih =>
    cases hm : asMap edge with
    | none => simp [GetPostsByTopic_loop, productsOf, edgeNode, hm, ih]
    | some edgeMap =>
      cases hn : asMap (mapIndex edgeMap "node") with
      | none => simp [GetPostsByTopic_loop, productsOf, edgeNode, hm, hn, ih]
      | some node => simp [GetPostsByTopic_loop, productsOf, edgeNode, hm, hn, ih]

theorem GetTopProductsByDate_loop_eq (fmtFloat : Float64 → String) (edges : List JSON)
    (products : List Product) :
    GetTopProductsByDate_loop fmtFloat edges products
      = products ++ productsOf (GetTopProductsByDate_product fmtFloat) edges := by
  induction edges generalizing products with
  | nil => simp [GetTopProductsByDate_loop, productsOf]
  | cons edge edges ih =>
    cases hm : asMap edge with
    | none => simp [GetTopProductsByDate_loop, productsOf, edgeNode, hm, ih]
    | some edgeMap =>
      cases hn : asMap (mapIndex edgeMap "node") with
      | none => simp [GetTopProductsByDate_loop, productsOf, edgeNode, hm, hn, ih]
      | some node => simp [GetTopProductsByDate_loop, productsOf, edgeNode, hm, hn, ih]

theorem GetProductsByRankByDate_loop_eq (fmtFloat : Float64 → String) (edges : List JSON)
    (products : List Product) :
    GetProductsByRankByDate_loop fmtFloat edges products
      = products ++ productsOf (GetProductsByRankByDate_product fmtFloat) edges := by
  induction edges generalizing products with
  | nil => simp [GetProductsByRankByDate_loop, productsOf]
  | cons edge edges ih =>
    cases hm : asMap edge with
    | none => simp [GetProductsByRankByDate_loop, productsOf, edgeNode, hm, ih]
    | some edgeMap =>
      cases hn : asMap (mapIndex edgeMap "node") with
      | none => simp [GetProductsByRankByDate_loop, productsOf, edgeNode, hm, hn, ih]
      | some node => simp [GetProductsByRankByDate_loop, productsOf, edgeNode, hm, hn, ih]


/-! ## Each operation is its extraction applied to what the transport returned -/

theorem GetDaily_of_fetch {W : Type} (fmtFloat : Float64 → String) (fetchData : Fetch W)
    (ph : ProductHunt) (w w1 : W) (data : GoMap)
    (h : fetchData GetDaily_query ph.APIKey w = ((data, none), w1)) :
    GetDaily fmtFloat fetchData ph w = (GetDaily_extract fmtFloat data, w1) := by
  simp [GetDaily, h]

theorem GetProductDetails_of_fetch {W : Type} (fmtFloat : Float64 → String)
    (fetchData : Fetch W) (ph : ProductHunt) (slug : String) (w w1 : W) (data : GoMap)
    (h : fetchData (GetProductDetails_query slug) ph.APIKey w = ((data, none), w1)) :
    GetProductDetails fmtFloat fetchData ph slug w
      = (GetProductDetails_extract fmtFloat data, w1) := by
  simp [GetProductDetails, h]

theorem GetPostsByTopic_of_fetch {W : Type} (fmtFloat : Float64 → String)
    (fetchData : Fetch W) (ph : ProductHunt) (topic : String) (w w1 : W) (data : GoMap)
    (h : fetchData (GetPostsByTopic_query topic) ph.APIKey w = ((data, none), w1)) :
    GetPostsByTopic fmtFloat fetchData ph topic w
      = (GetPostsByTopic_extract fmtFloat data, w1) := by
  simp [GetPostsByTopic, h]

theorem GetTopProductsByDate_of_fetch {W : Type} (fmtFloat : Float64 → String)
    (fetchData : Fetch W) (ph : ProductHunt) (date : String) (w w1 : W) (data : GoMap)
    (h : fetchData (GetTopProductsByDate_query date) ph.APIKey w = ((data, none), w1)) :
    GetTopProductsByDate fmtFloat fetchData ph date w
      = (GetTopProductsByDate_extract fmtFloat data, w1) := by
  simp [GetTopProductsByDate, h]

theorem GetProductsByRankByDate_of_fetch {W : Type} (fmtFloat : Float64 → String)
    (fetchData : Fetch W) (ph : ProductHunt) (date : String) (limit : Int) (w w1 : W)
    (data : GoMap)
    (h : fetchData (GetProductsByRankByDate_query date limit) ph.APIKey w = ((data, none), w1)) :
    GetProductsByRankByDate fmtFloat fetchData ph date limit w
      = (GetProductsByRankByDate_extract fmtFloat data, w1) := by
  simp [GetProductsByRankByDate, h]

/-! ## The extraction of the list operations, case by case along the path -/

theorem edgesOf_some {data : GoMap} {edges : List JSON} (h : edgesOf data = some edges) :
    ∃ dataMap posts, asMap (mapIndex data "data") = some dataMap
      ∧ asMap (mapIndex dataMap "posts") = some posts
      ∧ asSlice (mapIndex posts "edges") = some edges := by
  unfold edgesOf postsOf dataOf at h
  cases hd : asMap (mapIndex data "data") with
  | none => simp [hd] at h
  | some dataMap =>
    cases hp : asMap (mapIndex dataMap "posts") with
    | none => simp [hd, hp] at h
    | some posts => exact ⟨dataMap, posts, rfl, hp, by simpa [hd, hp] using h⟩

theorem GetDaily_extract_edges (fmtFloat : Float64 → String) {data : GoMap}
    {edges : List JSON} (h : edgesOf data = some edges) :
    GetDaily_extract fmtFloat data = (productsOf (GetDaily_product fmtFloat) edges, none) := by
  obtain ⟨dataMap, posts, hd, hp, he⟩ := edgesOf_some h
  simp [GetDaily_extract, hd, hp, he, GetDaily_loop_eq]

theorem GetPostsByTopic_extract_edges (fmtFloat : Float64 → String) {data : GoMap}
    {edges : List JSON} (h : edgesOf data = some edges) :
    GetPostsByTopic_extract fmtFloat data
      = (productsOf (GetPostsByTopic_product fmtFloat) edges, none) := by
  obtain ⟨dataMap, posts, hd, hp, he⟩ := edgesOf_some h
  simp [GetPostsByTopic_extract, hd, hp, he, GetPostsByTopic_loop_eq]

theorem GetTopProductsByDate_extract_edges (fmtFloat : Float64 → String) {data : GoMap}
    {edges : List JSON} (h : edgesOf data = some edges) :
    GetTopProductsByDate_extract fmtFloat data
      = (productsOf (GetTopProductsByDate_product fmtFloat) edges, none) := by
  obtain ⟨dataMap, posts, hd, hp, he⟩ := edgesOf_some h
  simp [GetTopProductsByDate_extract, hd, hp, he, GetTopProductsByDate_loop_eq]

theorem GetProductsByRankByDate_extract_edges (fmtFloat : Float64 → String) {data : GoMap}
    {edges : List JSON} (h : edgesOf data = some edges) :
    GetProductsByRankByDate_extract fmtFloat data
      = (productsOf (GetProductsByRankByDate_product fmtFloat) edges, none) := by
  obtain ⟨dataMap, posts, hd, hp, he⟩ := edgesOf_some h
  simp [GetProductsByRankByDate_extract, hd, hp, he, GetProductsByRankByDate_loop_eq]

/-! ## C1: malformed edges are skipped, the others kept in order -/

/-- C1. When `data.posts.edges` of the response is a list, each of the four
list operations returns a nil error and exactly the Products built from the
well-formed edges (an edge that is a mapping whose `node` is a mapping), in
edge order; every malformed edge is left out. -/
theorem C1_malformed_edges_skipped {W : Type} (fmtFloat : Float64 → String)
    (fetchData : Fetch W) (ph : ProductHunt) (topic date : String) (limit : Int)
    (w w1 : W) (data : GoMap) (edges : List JSON)
    (hedges : edgesOf data = some edges) :
    (fetchData GetDaily_query ph.APIKey w = ((data, none), w1) →
      GetDaily fmtFloat fetchData ph w
        = ((edges.filterMap fun edge => (edgeNode edge).map (GetDaily_product fmtFloat),
            none), w1))
    ∧ (fetchData (GetPostsByTopic_query topic) ph.APIKey w = ((data, none), w1) →
      GetPostsByTopic fmtFloat fetchData ph topic w
        = ((edges.filterMap fun edge =>
              (edgeNode edge).map (GetPostsByTopic_product fmtFloat), none), w1))
    ∧ (fetchData (GetTopProductsByDate_query date) ph.APIKey w = ((data, none), w1) →
      GetTopProductsByDate fmtFloat fetchData ph date w
        = ((edges.filterMap fun edge =>
              (edgeNode edge).map (GetTopProductsByDate_product fmtFloat), none), w1))
    ∧ (fetchData (GetProductsByRankByDate_query date limit) ph.APIKey w = ((data, none), w1) →
      GetProductsByRankByDate fmtFloat fetchData ph date limit w
        = ((edges.filterMap fun edge =>
              (edgeNode edge).map (GetProductsByRankByDate_product fmtFloat), none), w1)) := by
  refine ⟨fun h => ?_, fun h => ?_, fun h => ?_, fun h => ?_⟩
  · rw [GetDaily_of_fetch fmtFloat fetchData ph w w1 data h, GetDaily_extract_edges fmtFloat hedges]
    rfl
  · rw [GetPostsByTopic_of_fetch fmtFloat fetchData ph topic w w1 data h,
      GetPostsByTopic_extract_edges fmtFloat hedges]
    rfl
  · rw [GetTopProductsByDate_of_fetch fmtFloat fetchData ph date w w1 data h,
      GetTopProductsByDate_extract_edges fmtFloat hedges]
    rfl
  · rw [GetProductsByRankByDate_of_fetch fmtFloat fetchData ph date limit w w1 data h,
      GetProductsByRankByDate_extract_edges fmtFloat hedges]
    rfl

/-- C1 at the response
`{"data":{"posts":{"edges":[{"node":{"id":"1","name":"A","tagline":"t"}},{"node":null}]}}}`:
`GetDaily` returns the one Product with ID "1", Name "A", Tagline "t". -/
theorem C1_malformed_edges_skipped_witness :
    GetDaily sampleFmtFloat (respond (envelope sampleEdges)) sampleClient ()
      = (([{ ID := "1", Name := "A", Tagline := "t" }], none), ()) :=
  (C1_malformed_edges_skipped sampleFmtFloat (respond (envelope sampleEdges)) sampleClient
      "tech" "2024-01-01" 5 () () (envelope sampleEdges) sampleEdges rfl).1 rfl

/-! ## C2: N well-formed edges give N Products, position by position -/

theorem edgeNode_obj (edgeMap node : GoMap) (h : mapIndex edgeMap "node" = JSON.obj node) :
    edgeNode (JSON.obj edgeMap) = some node := by
  simp [edgeNode, asMap, h]

theorem productsOf_wellFormed (build : GoMap → Product) (edges : List JSON)
    (hwf : ∀ edge ∈ edges, ∃ edgeMap node : GoMap,
      edge = JSON.obj edgeMap ∧ mapIndex edgeMap "node" = JSON.obj node) :
    BuiltInEdgeOrder build edges (productsOf build edges) := by
  have hmap : productsOf build edges
      = edges.map fun edge => build ((edgeNode edge).getD []) := by
    induction edges with
    | nil => rfl
    | cons edge edges ih =>
      obtain ⟨edgeMap, node, rfl, hnode⟩ := hwf _ (List.mem_cons_self _ _)
      have ih2 := ih fun e he => hwf e (List.mem_cons_of_mem _ he)
      unfold productsOf at ih2 ⊢
      simp [List.filterMap_cons, edgeNode_obj edgeMap node hnode, ih2]
  refine ⟨by simp [hmap], ?_⟩
  intro i edgeMap node hi hnode
  simp [hmap, List.getElem?_map, hi, edgeNode_obj edgeMap node hnode]

/-- C2. When `data.posts.edges` of the response is a list of N edges, each a
mapping whose `node` is a mapping, each of the four list operations returns a
nil error and a list of exactly N Products, the i-th of them built from the
node of the i-th edge. -/
theorem C2_wellformed_edges_in_order {W : Type} (fmtFloat : Float64 → String)
    (fetchData : Fetch W) (ph : ProductHunt) (topic date : String) (limit : Int)
    (w w1 : W) (data : GoMap) (edges : List JSON)
    (hedges : edgesOf data = some edges)
    (hwf : ∀ edge ∈ edges, ∃ edgeMap node : GoMap,
      edge = JSON.obj edgeMap ∧ mapIndex edgeMap "node" = JSON.obj node) :
    (fetchData GetDaily_query ph.APIKey w = ((data, none), w1) →
      ∃ products, GetDaily fmtFloat fetchData ph w = ((products, none), w1)
        ∧ BuiltInEdgeOrder (GetDaily_product fmtFloat) edges products)
    ∧ (fetchData (GetPostsByTopic_query topic) ph.APIKey w = ((data, none), w1) →
      ∃ products, GetPostsByTopic fmtFloat fetchData ph topic w = ((products, none), w1)
        ∧ BuiltInEdgeOrder (GetPostsByTopic_product fmtFloat) edges products)
    ∧ (fetchData (GetTopProductsByDate_query date) ph.APIKey w = ((data, none), w1) →
      ∃ products, GetTopProductsByDate fmtFloat fetchData ph date w = ((products, none), w1)
        ∧ BuiltInEdgeOrder (GetTopProductsByDate_product fmtFloat) edges products)
    ∧ (fetchData (GetProductsByRankByDate_query date limit) ph.APIKey w = ((data, none), w1) →
      ∃ products,
        GetProductsByRankByDate fmtFloat fetchData ph date limit w = ((products, none), w1)
        ∧ BuiltInEdgeOrder (GetProductsByRankByDate_product fmtFloat) edges products) := by
  refine ⟨fun h => ⟨_, ?_, productsOf_wellFormed _ edges hwf⟩,
    fun h => ⟨_, ?_, productsOf_wellFormed _ edges hwf⟩,
    fun h => ⟨_, ?_, productsOf_wellFormed _ edges hwf⟩,
    fun h => ⟨_, ?_, productsOf_wellFormed _ edges hwf⟩⟩
  · rw [GetDaily_of_fetch fmtFloat fetchData ph w w1 data h,
      GetDaily_extract_edges fmtFloat hedges]
  · rw [GetPostsByTopic_of_fetch fmtFloat fetchData ph topic w w1 data h,
      GetPostsByTopic_extract_edges fmtFloat hedges]
  · rw [GetTopProductsByDate_of_fetch fmtFloat fetchData ph date w w1 data h,
      GetTopProductsByDate_extract_edges fmtFloat hedges]
  · rw [GetProductsByRankByDate_of_fetch fmtFloat fetchData ph date limit w w1 data h,
      GetProductsByRankByDate_extract_edges fmtFloat hedges]

/-- C2 at a response with the two well-formed edges
`{"node":{"id":"1","name":"A","tagline":"t"}}` and `{"node":{"id":"2"}}`: `GetPostsByTopic`
returns two Products in that order. -/
theorem C2_wellformed_edges_in_order_witness :
    ∃ products,
      GetPostsByTopic sampleFmtFloat (respond (envelope twoEdges)) sampleClient "tech" ()
        = ((products, none), ())
      ∧ BuiltInEdgeOrder (GetPostsByTopic_product sampleFmtFloat) twoEdges products :=
  (C2_wellformed_edges_in_order sampleFmtFloat (respond (envelope twoEdges)) sampleClient
      "tech" "2024-01-01" 5 () () (envelope twoEdges) twoEdges rfl
      (by
        intro edge he
        simp only [twoEdges, List.mem_cons, List.mem_singleton, List.not_mem_nil, or_false] at he
        rcases he with rfl | rfl
        · exact ⟨_, _, rfl, rfl⟩
        · exact ⟨_, _, rfl, rfl⟩)).2.1 rfl

/-! ## C3: a response without `data` -/

theorem asMap_mapIndex_of_absent {m : GoMap} {k : String} (h : mapGet m k = none) :
    asMap (mapIndex m k) = none := by
  simp [mapIndex, h, asMap]

/-- C3. When the top-level `data` key is missing from the response, each of
the five operations returns the error "invalid response format: missing
'data'" together with an empty list (the list operations) or no Product
(`GetProductDetails`). -/
theorem C3_missing_data_is_error {W : Type} (fmtFloat : Float64 → String)
    (fetchData : Fetch W) (ph : ProductHunt) (slug topic date : String) (limit : Int)
    (w w1 : W) (data : GoMap)
    (hmissing : mapGet data "data" = none) :
    (fetchData GetDaily_query ph.APIKey w = ((data, none), w1) →
      GetDaily fmtFloat fetchData ph w
        = (([], some (GoError.errorf "invalid response format: missing 'data'")), w1))
    ∧ (fetchData (GetProductDetails_query slug) ph.APIKey w = ((data, none), w1) →
      GetProductDetails fmtFloat fetchData ph slug w
        = ((none, some (GoError.errorf "invalid response format: missing 'data'")), w1))
    ∧ (fetchData (GetPostsByTopic_query topic) ph.APIKey w = ((data, none), w1) →
      GetPostsByTopic fmtFloat fetchData ph topic w
        = (([], some (GoError.errorf "invalid response format: missing 'data'")), w1))
    ∧ (fetchData (GetTopProductsByDate_query date) ph.APIKey w = ((data, none), w1) →
      GetTopProductsByDate fmtFloat fetchData ph date w
        = (([], some (GoError.errorf "invalid response format: missing 'data'")), w1))
    ∧ (fetchData (GetProductsByRankByDate_query date limit) ph.APIKey w = ((data, none), w1) →
      GetProductsByRankByDate fmtFloat fetchData ph date limit w
        = (([], some (GoError.errorf "invalid response format: missing 'data'")), w1)) := by
  have hd := asMap_mapIndex_of_absent hmissing
  refine ⟨fun h => ?_, fun h => ?_, fun h => ?_, fun h => ?_, fun h => ?_⟩
  · rw [GetDaily_of_fetch fmtFloat fetchData ph w w1 data h]
    simp [GetDaily_extract, hd]
  · rw [GetProductDetails_of_fetch fmtFloat fetchData ph slug w w1 data h]
    simp [GetProductDetails_extract, hd]
  · rw [GetPostsByTopic_of_fetch fmtFloat fetchData ph topic w w1 data h]
    simp [GetPostsByTopic_extract, hd]
  · rw [GetTopProductsByDate_of_fetch fmtFloat fetchData ph date w w1 data h]
    simp [GetTopProductsByDate_extract, hd]
  · rw [GetProductsByRankByDate_of_fetch fmtFloat fetchData ph date limit w w1 data h]
    simp [GetProductsByRankByDate_extract, hd]

/-- C3 at the response `{"errors":[]}`: `GetProductDetails` returns no Product and
the error naming `data`. -/
theorem C3_missing_data_is_error_witness :
    GetProductDetails sampleFmtFloat (respond [("errors", JSON.arr [])]) sampleClient "some-slug" ()
      = ((none, some (GoError.errorf "invalid response format: missing 'data'")), ()) :=
  (C3_missing_data_is_error sampleFmtFloat (respond [("errors", JSON.arr [])]) sampleClient
      "some-slug" "tech" "2024-01-01" 5 () () [("errors", JSON.arr [])] rfl).2.1 rfl

/-! ## C4: `GetProductDetails` when there is no post -/

/-- C4. When `data` is a mapping and `data.post` is null or absent,
`GetProductDetails` returns no Product and a nil error (not found). That
outcome differs from the one for a response without `data`, which carries an
error. -/
theorem C4_null_post_is_not_found {W : Type} (fmtFloat : Float64 → String)
    (fetchData : Fetch W) (ph : ProductHunt) (slug : String) (w w1 : W)
    (data dataMap : GoMap)
    (hdata : mapIndex data "data" = JSON.obj dataMap)
    (hpost : mapGet dataMap "post" = none ∨ mapGet dataMap "post" = some JSON.null)
    (hfetch : fetchData (GetProductDetails_query slug) ph.APIKey w = ((data, none), w1)) :
    GetProductDetails fmtFloat fetchData ph slug w = ((none, none), w1)
    ∧ ∀ (fetchData0 : Fetch W) (w0 w2 : W) (data0 : GoMap),
        mapGet data0 "data" = none →
        fetchData0 (GetProductDetails_query slug) ph.APIKey w0 = ((data0, none), w2) →
        (GetProductDetails fmtFloat fetchData0 ph slug w0).1
            = (none, some (GoError.errorf "invalid response format: missing 'data'"))
          ∧ (GetProductDetails fmtFloat fetchData0 ph slug w0).1
            ≠ (GetProductDetails fmtFloat fetchData ph slug w).1 := by
  have hp : asMap (mapIndex dataMap "post") = none := by
    rcases hpost with h | h <;> simp [mapIndex, h, asMap]
  have hmain : GetProductDetails fmtFloat fetchData ph slug w = ((none, none), w1) := by
    have hd : asMap (mapIndex data "data") = some dataMap := by rw [hdata]; rfl
    rw [GetProductDetails_of_fetch fmtFloat fetchData ph slug w w1 data hfetch]
    simp [GetProductDetails_extract, hd, hp]
  refine ⟨hmain, ?_⟩
  intro fetchData0 w0 w2 data0 hmissing h0
  have hd := asMap_mapIndex_of_absent hmissing
  rw [GetProductDetails_of_fetch fmtFloat fetchData0 ph slug w0 w2 data0 h0, hmain]
  simp [GetProductDetails_extract, hd]

/-- C4 at the response `{"data":{"post":null}}`. -/
theorem C4_null_post_is_not_found_witness :
    GetProductDetails sampleFmtFloat
        (respond [("data", JSON.obj [("post", JSON.null)])]) sampleClient "some-slug" ()
      = ((none, none), ()) :=
  (C4_null_post_is_not_found sampleFmtFloat
      (respond [("data", JSON.obj [("post", JSON.null)])]) sampleClient "some-slug" () ()
      [("data", JSON.obj [("post", JSON.null)])] [("post", JSON.null)] rfl (Or.inr rfl) rfl).1

/-! ## C5: the error names the first missing segment of the path -/

theorem asMap_eq_some {v : JSON} {m : GoMap} : asMap v = some m ↔ v = JSON.obj m := by
  cases v <;> simp [asMap]

theorem asSlice_eq_some {v : JSON} {xs : List JSON} : asSlice v = some xs ↔ v = JSON.arr xs := by
  cases v <;> simp [asSlice]

theorem firstMissing_eq_none_iff (data : GoMap) :
    firstMissing data = none ↔ ∃ (dataMap posts : GoMap) (edges : List JSON),
      mapIndex data "data" = JSON.obj dataMap ∧ mapIndex dataMap "posts" = JSON.obj posts
        ∧ mapIndex posts "edges" = JSON.arr edges := by
  unfold firstMissing edgesOf postsOf dataOf
  cases hd : asMap (mapIndex data "data") with
  | none =>
    simp only [Option.isNone_none, if_true, Option.some_ne_none, false_iff]
    rintro ⟨dataMap, posts, edges, h1, -, -⟩
    rw [h1] at hd
    simp [asMap] at hd
  | some dataMap =>
    have hd2 := asMap_eq_some.mp hd
    cases hp : asMap (mapIndex dataMap "posts") with
    | none =>
      simp only [Option.isNone_some, Option.some_bind, hp, Option.isNone_none, if_true,
        Bool.false_eq_true, if_false, Option.some_ne_none, false_iff]
      rintro ⟨dataMap2, posts, edges, h1, h2, -⟩
      rw [hd2] at h1
      cases h1
      rw [h2] at hp
      simp [asMap] at hp
    | some posts =>
      have hp2 := asMap_eq_some.mp hp
      cases he : asSlice (mapIndex posts "edges") with
      | none =>
        simp only [Option.isNone_some, Option.some_bind, hp, he, Option.isNone_none, if_true,
          Bool.false_eq_true, if_false, Option.some_ne_none, false_iff]
        rintro ⟨dataMap2, posts2, edges, h1, h2, h3⟩
        rw [hd2] at h1
        cases h1
        rw [hp2] at h2
        cases h2
        rw [h3] at he
        simp [asSlice] at he
      | some edges =>
        simp only [Option.isNone_some, Option.some_bind, hp, he, Bool.false_eq_true, if_false,
          true_iff]
        exact ⟨dataMap, posts, edges, hd2, hp2, asSlice_eq_some.mp he⟩

theorem GetDaily_extract_error (fmtFloat : Float64 → String) (data : GoMap) :
    (GetDaily_extract fmtFloat data).2 = (firstMissing data).map fun segment =>
      GoError.errorf ("invalid response format: missing '" ++ segment ++ "'") := by
  unfold GetDaily_extract firstMissing edgesOf postsOf dataOf
  cases hd : asMap (mapIndex data "data") with
  | none => simp
  | some dataMap =>
    cases hp : asMap (mapIndex dataMap "posts") with
    | none => simp [hp]
    | some posts =>
      cases he : asSlice (mapIndex posts "edges") with
      | none => simp [hp, he]
      | some edges => simp [hp, he]

theorem GetPostsByTopic_extract_error (fmtFloat : Float64 → String) (data : GoMap) :
    (GetPostsByTopic_extract fmtFloat data).2 = (firstMissing data).map fun segment =>
      GoError.errorf ("invalid response format: missing '" ++ segment ++ "'") := by
  unfold GetPostsByTopic_extract firstMissing edgesOf postsOf dataOf
  cases hd : asMap (mapIndex data "data") with
  | none => simp
  | some dataMap =>
    cases hp : asMap (mapIndex dataMap "posts") with
    | none => simp [hp]
    | some posts =>
      cases he : asSlice (mapIndex posts "edges") with
      | none => simp [hp, he]
      | some edges => simp [hp, he]

theorem GetTopProductsByDate_extract_error (fmtFloat : Float64 → String) (data : GoMap) :
    (GetTopProductsByDate_extract fmtFloat data).2 = (firstMissing data).map fun segment =>
      GoError.errorf ("invalid response format: missing '" ++ segment ++ "'") := by
  unfold GetTopProductsByDate_extract firstMissing edgesOf postsOf dataOf
  cases hd : asMap (mapIndex data "data") with
  | none => simp
  | some dataMap =>
    cases hp : asMap (mapIndex dataMap "posts") with
    | none => simp [hp]
    | some posts =>
      cases he : asSlice (mapIndex posts "edges") with
      | none => simp [hp, he]
      | some edges => simp [hp, he]

theorem GetProductsByRankByDate_extract_error (fmtFloat : Float64 → String) (data : GoMap) :
    (GetProductsByRankByDate_extract fmtFloat data).2 = (firstMissing data).map fun segment =>
      GoError.errorf ("invalid response format: missing '" ++ segment ++ "'") := by
  unfold GetProductsByRankByDate_extract firstMissing edgesOf postsOf dataOf
  cases hd : asMap (mapIndex data "data") with
  | none => simp
  | some dataMap =>
    cases hp : asMap (mapIndex dataMap "posts") with
    | none => simp [hp]
    | some posts =>
      cases he : asSlice (mapIndex posts "edges") with
      | none => simp [hp, he]
      | some edges => simp [hp, he]

/-- C5. For each of the four list operations and every response: the returned
error is the `fmt.Errorf` error "invalid response format: missing '<segment>'"
for the first segment among `data`, `posts`, `edges` (in that order) that is
absent or not of the expected shape, and nil when there is no such segment,
which is exactly when `data` and `data.posts` are mappings and
`data.posts.edges` is a list. -/
theorem C5_error_names_first_missing_segment {W : Type} (fmtFloat : Float64 → String)
    (fetchData : Fetch W) (ph : ProductHunt) (topic date : String) (limit : Int)
    (w w1 : W) (data : GoMap) :
    (fetchData GetDaily_query ph.APIKey w = ((data, none), w1) →
      (GetDaily fmtFloat fetchData ph w).1.2 = (firstMissing data).map fun segment =>
        GoError.errorf ("invalid response format: missing '" ++ segment ++ "'"))
    ∧ (fetchData (GetPostsByTopic_query topic) ph.APIKey w = ((data, none), w1) →
      (GetPostsByTopic fmtFloat fetchData ph topic w).1.2
        = (firstMissing data).map fun segment =>
            GoError.errorf ("invalid response format: missing '" ++ segment ++ "'"))
    ∧ (fetchData (GetTopProductsByDate_query date) ph.APIKey w = ((data, none), w1) →
      (GetTopProductsByDate fmtFloat fetchData ph date w).1.2
        = (firstMissing data).map fun segment =>
            GoError.errorf ("invalid response format: missing '" ++ segment ++ "'"))
    ∧ (fetchData (GetProductsByRankByDate_query date limit) ph.APIKey w = ((data, none), w1) →
      (GetProductsByRankByDate fmtFloat fetchData ph date limit w).1.2
        = (firstMissing data).map fun segment =>
            GoError.errorf ("invalid response format: missing '" ++ segment ++ "'"))
    ∧ (firstMissing data = none ↔ ∃ (dataMap posts : GoMap) (edges : List JSON),
        mapIndex data "data" = JSON.obj dataMap ∧ mapIndex dataMap "posts" = JSON.obj posts
          ∧ mapIndex posts "edges" = JSON.arr edges) := by
  refine ⟨fun h => ?_, fun h => ?_, fun h => ?_, fun h => ?_, firstMissing_eq_none_iff data⟩
  · rw [GetDaily_of_fetch fmtFloat fetchData ph w w1 data h]
    exact GetDaily_extract_error fmtFloat data
  · rw [GetPostsByTopic_of_fetch fmtFloat fetchData ph topic w w1 data h]
    exact GetPostsByTopic_extract_error fmtFloat data
  · rw [GetTopProductsByDate_of_fetch fmtFloat fetchData ph date w w1 data h]
    exact GetTopProductsByDate_extract_error fmtFloat data
  · rw [GetProductsByRankByDate_of_fetch fmtFloat fetchData ph date limit w w1 data h]
    exact GetProductsByRankByDate_extract_error fmtFloat data

/-- C5 at the response `{"data":{"posts":[]}}`, where `data` is a mapping and
`posts` is a list instead of a mapping: `GetTopProductsByDate` fails naming `posts`. -/
theorem C5_error_names_first_missing_segment_witness :
    (GetTopProductsByDate sampleFmtFloat
        (respond [("data", JSON.obj [("posts", JSON.arr [])])]) sampleClient "2024-01-01" ()).1.2
      = some (GoError.errorf "invalid response format: missing 'posts'") :=
  (C5_error_names_first_missing_segment sampleFmtFloat
      (respond [("data", JSON.obj [("posts", JSON.arr [])])]) sampleClient
      "tech" "2024-01-01" 5 () () [("data", JSON.obj [("posts", JSON.arr [])])]).2.2.1 rfl

/-! ## C6, C8: how a field value is stringified -/

theorem mem_productsOf (build : GoMap → Product) (edges : List JSON) (node : GoMap)
    (h : node ∈ edges.filterMap edgeNode) : build node ∈ productsOf build edges := by
  simp only [productsOf, List.mem_filterMap] at h ⊢
  obtain ⟨edge, he, hn⟩ := h
  exact ⟨edge, he, by simp [hn]⟩

theorem edgesOf_of_mem_records {data : GoMap} {node : GoMap}
    (h : node ∈ ((edgesOf data).getD []).filterMap edgeNode) :
    ∃ edges, edgesOf data = some edges ∧ node ∈ edges.filterMap edgeNode := by
  cases he : edgesOf data with
  | none => simp [he] at h
  | some edges => exact ⟨edges, rfl, by simpa [he] using h⟩

/-- Every record of the response has its Product in the outcome, and the error is nil. -/
theorem Op.run_record {W : Type} (fmtFloat : Float64 → String) (fetchData : Fetch W)
    (ph : ProductHunt) (arg : String) (limit : Int) (w w1 : W) (data : GoMap) (op : Op)
    (node : GoMap)
    (hfetch : fetchData (op.query arg limit) ph.APIKey w = ((data, none), w1))
    (hnode : node ∈ op.records data) :
    op.product fmtFloat node ∈ (op.run fmtFloat fetchData ph arg limit w).1.1
      ∧ (op.run fmtFloat fetchData ph arg limit w).1.2 = none := by
  cases op with
  | daily =>
    obtain ⟨edges, he, hmem⟩ := edgesOf_of_mem_records hnode
    simp only [Op.run, Op.product]
    rw [GetDaily_of_fetch fmtFloat fetchData ph w w1 data hfetch,
      GetDaily_extract_edges fmtFloat he]
    exact ⟨mem_productsOf _ edges node hmem, rfl⟩
  | details =>
    simp only [Op.records, dataOf, Option.mem_toList, Option.mem_def] at hnode
    simp only [Op.run, Op.product]
    rw [GetProductDetails_of_fetch fmtFloat fetchData ph arg w w1 data hfetch]
    unfold GetProductDetails_extract
    cases hd : asMap (mapIndex data "data") with
    | none => simp [hd] at hnode
    | some dataMap =>
      simp only [hd, Option.some_bind] at hnode
      simp [hnode]
  | byTopic =>
    obtain ⟨edges, he, hmem⟩ := edgesOf_of_mem_records hnode
    simp only [Op.run, Op.product]
    rw [GetPostsByTopic_of_fetch fmtFloat fetchData ph arg w w1 data hfetch,
      GetPostsByTopic_extract_edges fmtFloat he]
    exact ⟨mem_productsOf _ edges node hmem, rfl⟩
  | topByDate =>
    obtain ⟨edges, he, hmem⟩ := edgesOf_of_mem_records hnode
    simp only [Op.run, Op.product]
    rw [GetTopProductsByDate_of_fetch fmtFloat fetchData ph arg w w1 data hfetch,
      GetTopProductsByDate_extract_edges fmtFloat he]
    exact ⟨mem_productsOf _ edges node hmem, rfl⟩
  | rankByDate =>
    obtain ⟨edges, he, hmem⟩ := edgesOf_of_mem_records hnode
    simp only [Op.run, Op.product]
    rw [GetProductsByRankByDate_of_fetch fmtFloat fetchData ph arg limit w w1 data hfetch,
      GetProductsByRankByDate_extract_edges fmtFloat he]
    exact ⟨mem_productsOf _ edges node hmem, rfl⟩

/-- Each field of an operation's field set is the `%v` text of its raw value. -/
theorem Op.product_get (fmtFloat : Float64 → String) (op : Op) (node : GoMap) (f : Field)
    (v : JSON) (hf : f ∈ op.fields) (hraw : rawField node f = some v) :
    (op.product fmtFloat node).get f = sprintV fmtFloat v := by
  cases op <;> cases f <;>
    first
    | (exfalso; revert hf; decide)
    | (simp only [rawField] at hraw
       simp [Op.product, Product.get, GetDaily_product, GetProductDetails_product,
         GetPostsByTopic_product, GetTopProductsByDate_product,
         GetProductsByRankByDate_product, mapIndex, hraw]
       done)
    | (simp only [rawField] at hraw
       simp only [Op.product, Product.get, GetPostsByTopic_product,
         GetPostsByTopic_thumbnailUrl]
       cases ht : mapGet node "thumbnail" with
       | none => simp [ht] at hraw
       | some thumb =>
         cases hm : asMap thumb with
         | none => simp [ht, hm] at hraw
         | some thumbMap =>
           simp only [ht, hm, Option.some_bind] at hraw
           simp [mapIndex, hraw, hm])

/-- C6. For every operation, every field of its field set and every record
(node, or `post`) of the response in which the raw value of that field is
JSON null: the Product built from the record has "<nil>" in that field, that
Product is in the outcome, and the error is nil. The placeholder is the same
for all fields and all five operations. -/
theorem C6_null_field_is_placeholder {W : Type} (fmtFloat : Float64 → String)
    (fetchData : Fetch W) (ph : ProductHunt) (arg : String) (limit : Int) (w w1 : W)
    (data : GoMap) (op : Op) (node : GoMap) (f : Field)
    (hfetch : fetchData (op.query arg limit) ph.APIKey w = ((data, none), w1))
    (hnode : node ∈ op.records data)
    (hf : f ∈ op.fields)
    (hnull : rawField node f = some JSON.null) :
    (op.product fmtFloat node).get f = "<nil>"
      ∧ op.product fmtFloat node ∈ (op.run fmtFloat fetchData ph arg limit w).1.1
      ∧ (op.run fmtFloat fetchData ph arg limit w).1.2 = none := by
  refine ⟨?_, Op.run_record fmtFloat fetchData ph arg limit w w1 data op node hfetch hnode⟩
  rw [Op.product_get fmtFloat op node f JSON.null hf hnull]
  simp [sprintV]

/-- C6 at `GetPostsByTopic` and the node `{"id":"7","thumbnail":{"url":null}}`: the
Thumbnail of its Product is "<nil>" and the Product is returned. -/
theorem C6_null_field_is_placeholder_witness :
    (Op.byTopic.product sampleFmtFloat nullThumbNode).get Field.thumbnail = "<nil>"
      ∧ Op.byTopic.product sampleFmtFloat nullThumbNode
          ∈ (Op.byTopic.run sampleFmtFloat
              (respond (envelope [JSON.obj [("node", JSON.obj nullThumbNode)]]))
              sampleClient "tech" 5 ()).1.1
      ∧ (Op.byTopic.run sampleFmtFloat
            (respond (envelope [JSON.obj [("node", JSON.obj nullThumbNode)]]))
            sampleClient "tech" 5 ()).1.2 = none :=
  C6_null_field_is_placeholder sampleFmtFloat
    (respond (envelope [JSON.obj [("node", JSON.obj nullThumbNode)]]))
    sampleClient "tech" 5 () () (envelope [JSON.obj [("node", JSON.obj nullThumbNode)]])
    Op.byTopic nullThumbNode Field.thumbnail rfl (List.mem_cons_self _ _) (by decide) rfl

/-- C8. For every operation, every field of its field set and every record
(node, or `post`) of the response in which the raw value of that field is a
JSON string `s`: the Product built from the record has exactly `s` in that
field, whatever `s` is, and that Product is in the outcome. -/
theorem C8_string_field_passes_through {W : Type} (fmtFloat : Float64 → String)
    (fetchData : Fetch W) (ph : ProductHunt) (arg : String) (limit : Int) (w w1 : W)
    (data : GoMap) (op : Op) (node : GoMap) (f : Field) (s : String)
    (hfetch : fetchData (op.query arg limit) ph.APIKey w = ((data, none), w1))
    (hnode : node ∈ op.records data)
    (hf : f ∈ op.fields)
    (hstr : rawField node f = some (JSON.str s)) :
    (op.product fmtFloat node).get f = s
      ∧ op.product fmtFloat node ∈ (op.run fmtFloat fetchData ph arg limit w).1.1
      ∧ (op.run fmtFloat fetchData ph arg limit w).1.2 = none := by
  refine ⟨?_, Op.run_record fmtFloat fetchData ph arg limit w w1 data op node hfetch hnode⟩
  rw [Op.product_get fmtFloat op node f (JSON.str s) hf hstr]
  simp [sprintV]

/-- C8 at `GetProductDetails` and the post `{"name":"","website":" \"x\" "}`: the
empty Name stays empty. -/
theorem C8_string_field_passes_through_witness :
    (Op.details.product sampleFmtFloat emptyNamePost).get Field.name = ""
      ∧ Op.details.product sampleFmtFloat emptyNamePost
          ∈ (Op.details.run sampleFmtFloat
              (respond [("data", JSON.obj [("post", JSON.obj emptyNamePost)])])
              sampleClient "some-slug" 5 ()).1.1
      ∧ (Op.details.run sampleFmtFloat
            (respond [("data", JSON.obj [("post", JSON.obj emptyNamePost)])])
            sampleClient "some-slug" 5 ()).1.2 = none :=
  C8_string_field_passes_through sampleFmtFloat
    (respond [("data", JSON.obj [("post", JSON.obj emptyNamePost)])])
    sampleClient "some-slug" 5 () () [("data", JSON.obj [("post", JSON.obj emptyNamePost)])]
    Op.details emptyNamePost Field.name "" rfl (List.mem_cons_self _ _) (by decide) rfl

/-! ## C7: a thumbnail that is not a mapping -/

theorem GetPostsByTopic_thumbnailUrl_of_not_map (fmtFloat : Float64 → String) (node : GoMap)
    (h : ∀ thumbMap : GoMap, mapIndex node "thumbnail" ≠ JSON.obj thumbMap) :
    GetPostsByTopic_thumbnailUrl fmtFloat node = "" := by
  unfold GetPostsByTopic_thumbnailUrl
  cases ht : mapGet node "thumbnail" with
  | none => rfl
  | some thumb =>
    cases hm : asMap thumb with
    | none => simp [hm]
    | some thumbMap =>
      exact absurd (by simp [mapIndex, ht, asMap_eq_some.mp hm]) (h thumbMap)

theorem productsOf_eq_map (build : GoMap → Product) (edges : List JSON) :
    productsOf build edges = (edges.filterMap edgeNode).map build := by
  induction edges with
  | nil => rfl
  | cons edge edges ih =>
    unfold productsOf at ih ⊢
    cases hn : edgeNode edge <;> simp [List.filterMap_cons, hn, ih]

/-- C7. In `GetPostsByTopic`, for the node of a well-formed edge whose
`thumbnail` is null, absent or any value that is not a mapping: the error is
nil, no well-formed edge is dropped, the outcome holds the Product of that
node, its Thumbnail is the empty string and its other seven fields are the
`%v` texts of the node's members, the same as for the node with any
thumbnail put in. -/
theorem C7_thumbnail_not_mapping_gives_empty {W : Type} (fmtFloat : Float64 → String)
    (fetchData : Fetch W) (ph : ProductHunt) (topic : String) (w w1 : W)
    (data : GoMap) (edges : List JSON) (edge : JSON) (node : GoMap)
    (hfetch : fetchData (GetPostsByTopic_query topic) ph.APIKey w = ((data, none), w1))
    (hedges : edgesOf data = some edges)
    (hedge : edge ∈ edges)
    (hnode : edgeNode edge = some node)
    (hthumb : ∀ thumbMap : GoMap, mapIndex node "thumbnail" ≠ JSON.obj thumbMap) :
    ∃ products, GetPostsByTopic fmtFloat fetchData ph topic w = ((products, none), w1)
      ∧ products.length = (edges.filterMap edgeNode).length
      ∧ GetPostsByTopic_product fmtFloat node ∈ products
      ∧ GetPostsByTopic_product fmtFloat node =
          { ID := sprintV fmtFloat (mapIndex node "id"),
            Name := sprintV fmtFloat (mapIndex node "name"),
            Slug := sprintV fmtFloat (mapIndex node "slug"),
            Tagline := sprintV fmtFloat (mapIndex node "tagline"),
            Description := sprintV fmtFloat (mapIndex node "description"),
            Website := sprintV fmtFloat (mapIndex node "website"),
            URL := sprintV fmtFloat (mapIndex node "url"),
            Thumbnail := "" }
      ∧ ∀ thumb : JSON,
          { GetPostsByTopic_product fmtFloat (("thumbnail", thumb) :: node) with Thumbnail := "" }
            = GetPostsByTopic_product fmtFloat node := by
  have hurl := GetPostsByTopic_thumbnailUrl_of_not_map fmtFloat node hthumb
  refine ⟨productsOf (GetPostsByTopic_product fmtFloat) edges, ?_, ?_, ?_, ?_, ?_⟩
  · rw [GetPostsByTopic_of_fetch fmtFloat fetchData ph topic w w1 data hfetch,
      GetPostsByTopic_extract_edges fmtFloat hedges]
  · simp [productsOf_eq_map]
  · exact mem_productsOf _ edges node (List.mem_filterMap.mpr ⟨edge, hedge, hnode⟩)
  · simp [GetPostsByTopic_product, hurl]
  · intro thumb
    simp [GetPostsByTopic_product, hurl, mapIndex, mapGet, List.lookup]

/-- C7 at the response `{"data":{"posts":{"edges":[{"node":{"id":"1","name":"A",
"tagline":"t"}},{"node":null}]}}}`, whose first node has no thumbnail. -/
theorem C7_thumbnail_not_mapping_gives_empty_witness :
    ∃ products,
      GetPostsByTopic sampleFmtFloat (respond (envelope sampleEdges)) sampleClient "tech" ()
        = ((products, none), ())
      ∧ products.length = (sampleEdges.filterMap edgeNode).length
      ∧ GetPostsByTopic_product sampleFmtFloat sampleNode ∈ products
      ∧ GetPostsByTopic_product sampleFmtFloat sampleNode =
          { ID := sprintV sampleFmtFloat (mapIndex sampleNode "id"),
            Name := sprintV sampleFmtFloat (mapIndex sampleNode "name"),
            Slug := sprintV sampleFmtFloat (mapIndex sampleNode "slug"),
            Tagline := sprintV sampleFmtFloat (mapIndex sampleNode "tagline"),
            Description := sprintV sampleFmtFloat (mapIndex sampleNode "description"),
            Website := sprintV sampleFmtFloat (mapIndex sampleNode "website"),
            URL := sprintV sampleFmtFloat (mapIndex sampleNode "url"),
            Thumbnail := "" }
      ∧ ∀ thumb : JSON,
          { GetPostsByTopic_product sampleFmtFloat (("thumbnail", thumb) :: sampleNode)
              with Thumbnail := "" }
            = GetPostsByTopic_product sampleFmtFloat sampleNode :=
  C7_thumbnail_not_mapping_gives_empty sampleFmtFloat (respond (envelope sampleEdges))
    sampleClient "tech" () () (envelope sampleEdges) sampleEdges sampleEdge sampleNode
    rfl rfl (List.mem_cons_self _ _) rfl (fun _ h => JSON.noConfusion h)

/-! ## C9: the field set of each operation -/

theorem exists_node_of_mem_productsOf {build : GoMap → Product} {edges : List JSON}
    {p : Product} (h : p ∈ productsOf build edges) : ∃ node, p = build node := by
  rw [productsOf_eq_map] at h
  obtain ⟨node, -, rfl⟩ := List.mem_map.mp h
  exact ⟨node, rfl⟩

theorem GetDaily_extract_mem (fmtFloat : Float64 → String) (data : GoMap) (p : Product)
    (h : p ∈ (GetDaily_extract fmtFloat data).1) : ∃ node, p = GetDaily_product fmtFloat node := by
  unfold GetDaily_extract at h
  cases hd : asMap (mapIndex data "data") with
  | none => simp [hd] at h
  | some dataMap =>
    cases hp : asMap (mapIndex dataMap "posts") with
    | none => simp [hd, hp] at h
    | some posts =>
      cases he : asSlice (mapIndex posts "edges") with
      | none => simp [hd, hp, he] at h
      | some edges =>
        simp only [hd, hp, he, GetDaily_loop_eq, List.nil_append] at h
        exact exists_node_of_mem_productsOf h

theorem GetDaily_mem {W : Type} (fmtFloat : Float64 → String) (fetchData : Fetch W)
    (ph : ProductHunt) (w : W) (p : Product)
    (h : p ∈ (GetDaily fmtFloat fetchData ph w).1.1) :
    ∃ node, p = GetDaily_product fmtFloat node := by
  unfold GetDaily at h
  rcases hf : fetchData GetDaily_query ph.APIKey w with ⟨⟨data, err⟩, w1⟩
  cases err with
  | some e => simp [hf] at h
  | none =>
    simp only [hf] at h
    exact GetDaily_extract_mem fmtFloat data p h

theorem GetPostsByTopic_extract_mem (fmtFloat : Float64 → String) (data : GoMap) (p : Product)
    (h : p ∈ (GetPostsByTopic_extract fmtFloat data).1) : ∃ node, p = GetPostsByTopic_product fmtFloat node := by
  unfold GetPostsByTopic_extract at h
  cases hd : asMap (mapIndex data "data") with
  | none => simp [hd] at h
  | some dataMap =>
    cases hp : asMap (mapIndex dataMap "posts") with
    | none => simp [hd, hp] at h
    | some posts =>
      cases he : asSlice (mapIndex posts "edges") with
      | none => simp [hd, hp, he] at h
      | some edges =>
        simp only [hd, hp, he, GetPostsByTopic_loop_eq, List.nil_append] at h
        exact exists_node_of_mem_productsOf h

theorem GetPostsByTopic_mem {W : Type} (fmtFloat : Float64 → String) (fetchData : Fetch W)
    (ph : ProductHunt) (topic : String) (w : W) (p : Product)
    (h : p ∈ (GetPostsByTopic fmtFloat fetchData ph topic w).1.1) :
    ∃ node, p = GetPostsByTopic_product fmtFloat node := by
  unfold GetPostsByTopic at h
  rcases hf : fetchData (GetPostsByTopic_query topic) ph.APIKey w with ⟨⟨data, err⟩, w1⟩
  cases err with
  | some e => simp [hf] at h
  | none =>
    simp only [hf] at h
    exact GetPostsByTopic_extract_mem fmtFloat data p h

theorem GetTopProductsByDate_extract_mem (fmtFloat : Float64 → String) (data : GoMap) (p : Product)
    (h : p ∈ (GetTopProductsByDate_extract fmtFloat data).1) : ∃ node, p = GetTopProductsByDate_product fmtFloat node := by
  unfold GetTopProductsByDate_extract at h
  cases hd : asMap (mapIndex data "data") with
  | none => simp [hd] at h
  | some dataMap =>
    cases hp : asMap (mapIndex dataMap "posts") with
    | none => simp [hd, hp] at h
    | some posts =>
      cases he : asSlice (mapIndex posts "edges") with
      | none => simp [hd, hp, he] at h
      | some edges =>
        simp only [hd, hp, he, GetTopProductsByDate_loop_eq, List.nil_append] at h
        exact exists_node_of_mem_productsOf h

theorem GetTopProductsByDate_mem {W : Type} (fmtFloat : Float64 → String) (fetchData : Fetch W)
    (ph : ProductHunt) (date : String) (w : W) (p : Product)
    (h : p ∈ (GetTopProductsByDate fmtFloat fetchData ph date w).1.1) :
    ∃ node, p = GetTopProductsByDate_product fmtFloat node := by
  unfold GetTopProductsByDate at h
  rcases hf : fetchData (GetTopProductsByDate_query date) ph.APIKey w with ⟨⟨data, err⟩, w1⟩
  cases err with
  | some e => simp [hf] at h
  | none =>
    simp only [hf] at h
    exact GetTopProductsByDate_extract_mem fmtFloat data p h

theorem GetProductsByRankByDate_extract_mem (fmtFloat : Float64 → String) (data : GoMap) (p : Product)
    (h : p ∈ (GetProductsByRankByDate_extract fmtFloat data).1) : ∃ node, p = GetProductsByRankByDate_product fmtFloat node := by
  unfold GetProductsByRankByDate_extract at h
  cases hd : asMap (mapIndex data "data") with
  | none => simp [hd] at h
  | some dataMap =>
    cases hp : asMap (mapIndex dataMap "posts") with
    | none => simp [hd, hp] at h
    | some posts =>
      cases he : asSlice (mapIndex posts "edges") with
      | none => simp [hd, hp, he] at h
      | some edges =>
        simp only [hd, hp, he, GetProductsByRankByDate_loop_eq, List.nil_append] at h
        exact exists_node_of_mem_productsOf h

theorem GetProductsByRankByDate_mem {W : Type} (fmtFloat : Float64 → String) (fetchData : Fetch W)
    (ph : ProductHunt) (date : String) (limit : Int) (w : W) (p : Product)
    (h : p ∈ (GetProductsByRankByDate fmtFloat fetchData ph date limit w).1.1) :
    ∃ node, p = GetProductsByRankByDate_product fmtFloat node := by
  unfold GetProductsByRankByDate at h
  rcases hf : fetchData (GetProductsByRankByDate_query date limit) ph.APIKey w with ⟨⟨data, err⟩, w1⟩
  cases err with
  | some e => simp [hf] at h
  | none =>
    simp only [hf] at h
    exact GetProductsByRankByDate_extract_mem fmtFloat data p h

theorem GetProductDetails_eq_some {W : Type} (fmtFloat : Float64 → String)
    (fetchData : Fetch W) (ph : ProductHunt) (slug : String) (w : W) (p : Product)
    (h : (GetProductDetails fmtFloat fetchData ph slug w).1.1 = some p) :
    ∃ post, p = GetProductDetails_product fmtFloat post := by
  unfold GetProductDetails at h
  rcases hf : fetchData (GetProductDetails_query slug) ph.APIKey w with ⟨⟨data, err⟩, w1⟩
  cases err with
  | some e => simp [hf] at h
  | none =>
    simp only [hf, GetProductDetails_extract] at h
    cases hd : asMap (mapIndex data "data") with
    | none => simp [hd] at h
    | some dataMap =>
      cases hp : asMap (mapIndex dataMap "post") with
      | none => simp [hd, hp] at h
      | some post =>
        simp only [hd, hp, Option.some.injEq] at h
        exact ⟨post, h.symm⟩

/-- C9. Whatever the transport returns, every Product an operation returns
has the empty string outside the operation's field set: `GetDaily` and
`GetTopProductsByDate` give only ID, Name, Tagline; `GetProductsByRankByDate`
only ID, Name, Tagline, Description, Website, URL; `GetProductDetails` only
Name, Tagline, Description, Website; and a Product of `GetPostsByTopic` is the
struct literal that assigns all eight fields. -/
theorem C9_only_the_field_set_is_filled {W : Type} (fmtFloat : Float64 → String)
    (fetchData : Fetch W) (ph : ProductHunt) (slug topic date : String) (limit : Int) (w : W) :
    (∀ p ∈ (GetDaily fmtFloat fetchData ph w).1.1,
      p.Slug = "" ∧ p.Description = "" ∧ p.Website = "" ∧ p.URL = "" ∧ p.Thumbnail = "")
    ∧ (∀ p ∈ (GetTopProductsByDate fmtFloat fetchData ph date w).1.1,
      p.Slug = "" ∧ p.Description = "" ∧ p.Website = "" ∧ p.URL = "" ∧ p.Thumbnail = "")
    ∧ (∀ p ∈ (GetProductsByRankByDate fmtFloat fetchData ph date limit w).1.1,
      p.Slug = "" ∧ p.Thumbnail = "")
    ∧ (∀ p, (GetProductDetails fmtFloat fetchData ph slug w).1.1 = some p →
      p.ID = "" ∧ p.Slug = "" ∧ p.URL = "" ∧ p.Thumbnail = "")
    ∧ (∀ p ∈ (GetPostsByTopic fmtFloat fetchData ph topic w).1.1, ∃ node : GoMap,
      p = { ID := sprintV fmtFloat (mapIndex node "id"),
            Name := sprintV fmtFloat (mapIndex node "name"),
            Slug := sprintV fmtFloat (mapIndex node "slug"),
            Tagline := sprintV fmtFloat (mapIndex node "tagline"),
            Description := sprintV fmtFloat (mapIndex node "description"),
            Website := sprintV fmtFloat (mapIndex node "website"),
            URL := sprintV fmtFloat (mapIndex node "url"),
            Thumbnail := GetPostsByTopic_thumbnailUrl fmtFloat node }) := by
  refine ⟨fun p hp => ?_, fun p hp => ?_, fun p hp => ?_, fun p hp => ?_, fun p hp => ?_⟩
  · obtain ⟨node, rfl⟩ := GetDaily_mem fmtFloat fetchData ph w p hp
    simp [GetDaily_product]
  · obtain ⟨node, rfl⟩ := GetTopProductsByDate_mem fmtFloat fetchData ph date w p hp
    simp [GetTopProductsByDate_product]
  · obtain ⟨node, rfl⟩ := GetProductsByRankByDate_mem fmtFloat fetchData ph date limit w p hp
    simp [GetProductsByRankByDate_product]
  · obtain ⟨post, rfl⟩ := GetProductDetails_eq_some fmtFloat fetchData ph slug w p hp
    simp [GetProductDetails_product]
  · obtain ⟨node, rfl⟩ := GetPostsByTopic_mem fmtFloat fetchData ph topic w p hp
    exact ⟨node, rfl⟩

/-- C9 at a response with one full node: the Product of `GetDaily` keeps ID,
Name and Tagline and nothing else. -/
theorem C9_only_the_field_set_is_filled_witness :
    (GetDaily sampleFmtFloat (respond (envelope [JSON.obj [("node", JSON.obj fullNode)]]))
        sampleClient ()).1.1 = [{ ID := "1", Name := "A", Tagline := "t" }]
    ∧ ∀ p ∈ (GetDaily sampleFmtFloat
          (respond (envelope [JSON.obj [("node", JSON.obj fullNode)]])) sampleClient ()).1.1,
        p.Slug = "" ∧ p.Description = "" ∧ p.Website = "" ∧ p.URL = "" ∧ p.Thumbnail = "" :=
  ⟨rfl, (C9_only_the_field_set_is_filled sampleFmtFloat
    (respond (envelope [JSON.obj [("node", JSON.obj fullNode)]])) sampleClient
    "some-slug" "tech" "2024-01-01" 5 ()).1⟩

/-! ## C10: how many Products come back -/

theorem productsOf_length_le (build : GoMap → Product) (edges : List JSON) :
    (productsOf build edges).length ≤ edges.length := by
  rw [productsOf_eq_map, List.length_map]
  exact List.length_filterMap_le _ _

theorem GetDaily_extract_length (fmtFloat : Float64 → String) (data : GoMap) :
    (GetDaily_extract fmtFloat data).1.length ≤ ((edgesOf data).getD []).length := by
  cases he : edgesOf data with
  | some edges =>
    rw [GetDaily_extract_edges fmtFloat he]
    exact productsOf_length_le _ edges
  | none =>
    have hnil : (GetDaily_extract fmtFloat data).1 = [] := by
      unfold edgesOf postsOf dataOf at he
      unfold GetDaily_extract
      cases hd : asMap (mapIndex data "data") with
      | none => rfl
      | some dataMap =>
        cases hp : asMap (mapIndex dataMap "posts") with
        | none => simp [hp]
        | some posts =>
          cases hs : asSlice (mapIndex posts "edges") with
          | none => simp [hp, hs]
          | some edges => simp [hd, hp, hs] at he
    simp [hnil]

theorem GetPostsByTopic_extract_length (fmtFloat : Float64 → String) (data : GoMap) :
    (GetPostsByTopic_extract fmtFloat data).1.length ≤ ((edgesOf data).getD []).length := by
  cases he : edgesOf data with
  | some edges =>
    rw [GetPostsByTopic_extract_edges fmtFloat he]
    exact productsOf_length_le _ edges
  | none =>
    have hnil : (GetPostsByTopic_extract fmtFloat data).1 = [] := by
      unfold edgesOf postsOf dataOf at he
      unfold GetPostsByTopic_extract
      cases hd : asMap (mapIndex data "data") with
      | none => rfl
      | some dataMap =>
        cases hp : asMap (mapIndex dataMap "posts") with
        | none => simp [hp]
        | some posts =>
          cases hs : asSlice (mapIndex posts "edges") with
          | none => simp [hp, hs]
          | some edges => simp [hd, hp, hs] at he
    simp [hnil]

theorem GetTopProductsByDate_extract_length (fmtFloat : Float64 → String) (data : GoMap) :
    (GetTopProductsByDate_extract fmtFloat data).1.length ≤ ((edgesOf data).getD []).length := by
  cases he : edgesOf data with
  | some edges =>
    rw [GetTopProductsByDate_extract_edges fmtFloat he]
    exact productsOf_length_le _ edges
  | none =>
    have hnil : (GetTopProductsByDate_extract fmtFloat data).1 = [] := by
      unfold edgesOf postsOf dataOf at he
      unfold GetTopProductsByDate_extract
      cases hd : asMap (mapIndex data "data") with
      | none => rfl
      | some dataMap =>
        cases hp : asMap (mapIndex dataMap "posts") with
        | none => simp [hp]
        | some posts =>
          cases hs : asSlice (mapIndex posts "edges") with
          | none => simp [hp, hs]
          | some edges => simp [hd, hp, hs] at he
    simp [hnil]

theorem GetDaily_query_first :
    ∃ pre post : String, GetDaily_query = pre ++ "first: 10" ++ post :=
  ⟨"\n    query \x7b\n      posts(order: NEWEST, ",
    ") \x7b\n        edges \x7b\n          node \x7b\n            id\n            name\n            tagline\n          \x7d\n        \x7d\n      \x7d\n    \x7d\n    ",
    rfl⟩

theorem GetPostsByTopic_query_first (topic : String) :
    ∃ pre post : String, GetPostsByTopic_query topic = pre ++ "first: 99" ++ post := by
  refine ⟨"\n    query \x7b\n      posts(order: NEWEST, ", ", topic: \"" ++ topic ++
    ("\") \x7b\n" ++
  "        edges \x7b\n" ++
  "          node \x7b\n" ++
  "            id\n" ++
  "            name\n" ++
  "            slug\n" ++
  "            tagline\n" ++
  "            description\n" ++
  "            website\n" ++
  "            url\n" ++
  "            thumbnail \x7b\n" ++
  "              url\n" ++
  "            \x7d\n" ++
  "          \x7d\n" ++
  "        \x7d\n" ++
  "      \x7d\n" ++
  "    \x7d\n" ++
  "    "), ?_⟩
  unfold GetPostsByTopic_query
  have hpre : "\n" ++ "    query \x7b\n" ++ "      posts(order: NEWEST, first: 99, topic: \""
      = "\n    query \x7b\n      posts(order: NEWEST, " ++ "first: 99" ++ ", topic: \"" := by
    rfl
  rw [hpre]
  simp only [String.append_assoc]

theorem GetTopProductsByDate_query_first (date : String) :
    ∃ pre post : String, GetTopProductsByDate_query date = pre ++ "first: 5" ++ post := by
  refine ⟨"\n    query \x7b\n      posts(order: RANKING, postedAfter: \"" ++ date ++
    "T00:00:00Z\", postedBefore: \"" ++ date ++ "T23:59:59Z\", ",
    (") \x7b\n" ++
  "        edges \x7b\n" ++
  "          node \x7b\n" ++
  "            id\n" ++
  "            name\n" ++
  "            tagline\n" ++
  "            description\n" ++
  "            website\n" ++
  "          \x7d\n" ++
  "        \x7d\n" ++
  "      \x7d\n" ++
  "    \x7d\n" ++
  "    "), ?_⟩
  unfold GetTopProductsByDate_query
  have hpre : "\n" ++ "    query \x7b\n" ++ "      posts(order: RANKING, postedAfter: \""
      = "\n    query \x7b\n      posts(order: RANKING, postedAfter: \"" := rfl
  have hmid : "T23:59:59Z\", first: 5) \x7b\n" = "T23:59:59Z\", " ++ "first: 5" ++ ") \x7b\n" :=
    rfl
  rw [hpre, hmid]
  simp only [String.append_assoc]

theorem productsOf_replicate_sampleEdge (build : GoMap → Product) (n : Nat) :
    (productsOf build (List.replicate n sampleEdge)).length = n := by
  have h : (List.replicate n sampleEdge).filterMap (fun edge => (edgeNode edge).map build)
      = List.replicate n (build sampleNode) := List.filterMap_replicate_of_some rfl
  unfold productsOf
  rw [h, List.length_replicate]

/-- C10, refuted as stated: the operations do not cut the list. On responses
with 11, 100 and 6 well-formed edges, `GetDaily` returns 11 Products,
`GetPostsByTopic` 100 and `GetTopProductsByDate` 6. -/
theorem C10_more_than_the_maximum :
    ¬ ((GetDaily sampleFmtFloat (respond (envelope (List.replicate 11 sampleEdge)))
          sampleClient ()).1.1.length ≤ 10)
    ∧ ¬ ((GetPostsByTopic sampleFmtFloat (respond (envelope (List.replicate 100 sampleEdge)))
          sampleClient "tech" ()).1.1.length ≤ 99)
    ∧ ¬ ((GetTopProductsByDate sampleFmtFloat (respond (envelope (List.replicate 6 sampleEdge)))
          sampleClient "2024-01-01" ()).1.1.length ≤ 5) := by
  have h1 : (GetDaily sampleFmtFloat (respond (envelope (List.replicate 11 sampleEdge)))
      sampleClient ()).1.1.length = 11 := rfl
  have h2 : (GetPostsByTopic sampleFmtFloat (respond (envelope (List.replicate 100 sampleEdge)))
      sampleClient "tech" ()).1.1.length = 100 := by
    rw [GetPostsByTopic_of_fetch sampleFmtFloat _ sampleClient "tech" () ()
      (envelope (List.replicate 100 sampleEdge)) rfl,
      @GetPostsByTopic_extract_edges sampleFmtFloat (envelope (List.replicate 100 sampleEdge))
        (List.replicate 100 sampleEdge) rfl]
    exact productsOf_replicate_sampleEdge _ 100
  have h3 : (GetTopProductsByDate sampleFmtFloat
      (respond (envelope (List.replicate 6 sampleEdge))) sampleClient "2024-01-01" ()).1.1.length
      = 6 := rfl
  rw [h1, h2, h3]
  decide

/-- C10, amended. For every response, `GetDaily`, `GetPostsByTopic` and
`GetTopProductsByDate` return at most as many Products as `data.posts.edges`
of the response has elements (none when that path is missing). The numbers
10, 99 and 5 are what their queries ask of the service (`first: 10`,
`first: 99`, `first: 5`); the response is not cut to them. -/
theorem C10_at_most_the_edges_received {W : Type} (fmtFloat : Float64 → String)
    (fetchData : Fetch W) (ph : ProductHunt) (topic date : String) (w w1 : W) (data : GoMap) :
    (fetchData GetDaily_query ph.APIKey w = ((data, none), w1) →
      (GetDaily fmtFloat fetchData ph w).1.1.length ≤ ((edgesOf data).getD []).length)
    ∧ (fetchData (GetPostsByTopic_query topic) ph.APIKey w = ((data, none), w1) →
      (GetPostsByTopic fmtFloat fetchData ph topic w).1.1.length
        ≤ ((edgesOf data).getD []).length)
    ∧ (fetchData (GetTopProductsByDate_query date) ph.APIKey w = ((data, none), w1) →
      (GetTopProductsByDate fmtFloat fetchData ph date w).1.1.length
        ≤ ((edgesOf data).getD []).length)
    ∧ (∃ pre post : String, GetDaily_query = pre ++ "first: 10" ++ post)
    ∧ (∃ pre post : String, GetPostsByTopic_query topic = pre ++ "first: 99" ++ post)
    ∧ (∃ pre post : String, GetTopProductsByDate_query date = pre ++ "first: 5" ++ post) := by
  refine ⟨fun h => ?_, fun h => ?_, fun h => ?_, GetDaily_query_first,
    GetPostsByTopic_query_first topic, GetTopProductsByDate_query_first date⟩
  · rw [GetDaily_of_fetch fmtFloat fetchData ph w w1 data h]
    exact GetDaily_extract_length fmtFloat data
  · rw [GetPostsByTopic_of_fetch fmtFloat fetchData ph topic w w1 data h]
    exact GetPostsByTopic_extract_length fmtFloat data
  · rw [GetTopProductsByDate_of_fetch fmtFloat fetchData ph date w w1 data h]
    exact GetTopProductsByDate_extract_length fmtFloat data

/-- C10, amended, at the response with the edges
`[{"node":{"id":"1","name":"A","tagline":"t"}},{"node":null}]`: at most two Products. -/
theorem C10_at_most_the_edges_received_witness :
    (GetDaily sampleFmtFloat (respond (envelope sampleEdges)) sampleClient ()).1.1.length
      ≤ ((edgesOf (envelope sampleEdges)).getD []).length :=
  (C10_at_most_the_edges_received sampleFmtFloat (respond (envelope sampleEdges)) sampleClient
    "tech" "2024-01-01" () () (envelope sampleEdges)).1 rfl

/-! ## C11: an error never comes with Products -/

theorem GetDaily_extract_cases (fmtFloat : Float64 → String) (data : GoMap) :
    (∃ err, GetDaily_extract fmtFloat data = ([], some err))
      ∨ ∃ products, GetDaily_extract fmtFloat data = (products, none) := by
  unfold GetDaily_extract
  cases hd : asMap (mapIndex data "data") with
  | none => exact Or.inl ⟨_, rfl⟩
  | some dataMap =>
    cases hp : asMap (mapIndex dataMap "posts") with
    | none =>
      exact Or.inl ⟨GoError.errorf "invalid response format: missing 'posts'", by simp [hp]⟩
    | some posts =>
      cases he : asSlice (mapIndex posts "edges") with
      | none =>
        exact Or.inl ⟨GoError.errorf "invalid response format: missing 'edges'",
          by simp [hp, he]⟩
      | some edges => exact Or.inr ⟨GetDaily_loop fmtFloat edges [], by simp [hp, he]⟩

theorem GetDaily_cases {W : Type} (fmtFloat : Float64 → String) (fetchData : Fetch W)
    (ph : ProductHunt) (w : W) :
    (∃ err, (GetDaily fmtFloat fetchData ph w).1 = ([], some err))
      ∨ ∃ products, (GetDaily fmtFloat fetchData ph w).1 = (products, none) := by
  unfold GetDaily
  rcases hf : fetchData GetDaily_query ph.APIKey w with ⟨⟨data, err⟩, w1⟩
  cases err with
  | some e => exact Or.inl ⟨e, rfl⟩
  | none => exact GetDaily_extract_cases fmtFloat data

theorem GetPostsByTopic_extract_cases (fmtFloat : Float64 → String) (data : GoMap) :
    (∃ err, GetPostsByTopic_extract fmtFloat data = ([], some err))
      ∨ ∃ products, GetPostsByTopic_extract fmtFloat data = (products, none) := by
  unfold GetPostsByTopic_extract
  cases hd : asMap (mapIndex data "data") with
  | none => exact Or.inl ⟨_, rfl⟩
  | some dataMap =>
    cases hp : asMap (mapIndex dataMap "posts") with
    | none =>
      exact Or.inl ⟨GoError.errorf "invalid response format: missing 'posts'", by simp [hp]⟩
    | some posts =>
      cases he : asSlice (mapIndex posts "edges") with
      | none =>
        exact Or.inl ⟨GoError.errorf "invalid response format: missing 'edges'",
          by simp [hp, he]⟩
      | some edges => exact Or.inr ⟨GetPostsByTopic_loop fmtFloat edges [], by simp [hp, he]⟩

theorem GetPostsByTopic_cases {W : Type} (fmtFloat : Float64 → String) (fetchData : Fetch W)
    (ph : ProductHunt) (topic : String) (w : W) :
    (∃ err, (GetPostsByTopic fmtFloat fetchData ph topic w).1 = ([], some err))
      ∨ ∃ products, (GetPostsByTopic fmtFloat fetchData ph topic w).1 = (products, none) := by
  unfold GetPostsByTopic
  rcases hf : fetchData (GetPostsByTopic_query topic) ph.APIKey w with ⟨⟨data, err⟩, w1⟩
  cases err with
  | some e => exact Or.inl ⟨e, rfl⟩
  | none => exact GetPostsByTopic_extract_cases fmtFloat data

theorem GetTopProductsByDate_extract_cases (fmtFloat : Float64 → String) (data : GoMap) :
    (∃ err, GetTopProductsByDate_extract fmtFloat data = ([], some err))
      ∨ ∃ products, GetTopProductsByDate_extract fmtFloat data = (products, none) := by
  unfold GetTopProductsByDate_extract
  cases hd : asMap (mapIndex data "data") with
  | none => exact Or.inl ⟨_, rfl⟩
  | some dataMap =>
    cases hp : asMap (mapIndex dataMap "posts") with
    | none =>
      exact Or.inl ⟨GoError.errorf "invalid response format: missing 'posts'", by simp [hp]⟩
    | some posts =>
      cases he : asSlice (mapIndex posts "edges") with
      | none =>
        exact Or.inl ⟨GoError.errorf "invalid response format: missing 'edges'",
          by simp [hp, he]⟩
      | some edges => exact Or.inr ⟨GetTopProductsByDate_loop fmtFloat edges [], by simp [hp, he]⟩

theorem GetTopProductsByDate_cases {W : Type} (fmtFloat : Float64 → String) (fetchData : Fetch W)
    (ph : ProductHunt) (date : String) (w : W) :
    (∃ err, (GetTopProductsByDate fmtFloat fetchData ph date w).1 = ([], some err))
      ∨ ∃ products, (GetTopProductsByDate fmtFloat fetchData ph date w).1 = (products, none) := by
  unfold GetTopProductsByDate
  rcases hf : fetchData (GetTopProductsByDate_query date) ph.APIKey w with ⟨⟨data, err⟩, w1⟩
  cases err with
  | some e => exact Or.inl ⟨e, rfl⟩
  | none => exact GetTopProductsByDate_extract_cases fmtFloat data

theorem GetProductsByRankByDate_extract_cases (fmtFloat : Float64 → String) (data : GoMap) :
    (∃ err, GetProductsByRankByDate_extract fmtFloat data = ([], some err))
      ∨ ∃ products, GetProductsByRankByDate_extract fmtFloat data = (products, none) := by
  unfold GetProductsByRankByDate_extract
  cases hd : asMap (mapIndex data "data") with
  | none => exact Or.inl ⟨_, rfl⟩
  | some dataMap =>
    cases hp : asMap (mapIndex dataMap "posts") with
    | none =>
      exact Or.inl ⟨GoError.errorf "invalid response format: missing 'posts'", by simp [hp]⟩
    | some posts =>
      cases he : asSlice (mapIndex posts "edges") with
      | none =>
        exact Or.inl ⟨GoError.errorf "invalid response format: missing 'edges'",
          by simp [hp, he]⟩
      | some edges => exact Or.inr ⟨GetProductsByRankByDate_loop fmtFloat edges [], by simp [hp, he]⟩

theorem GetProductsByRankByDate_cases {W : Type} (fmtFloat : Float64 → String) (fetchData : Fetch W)
    (ph : ProductHunt) (date : String) (limit : Int) (w : W) :
    (∃ err, (GetProductsByRankByDate fmtFloat fetchData ph date limit w).1 = ([], some err))
      ∨ ∃ products, (GetProductsByRankByDate fmtFloat fetchData ph date limit w).1 = (products, none) := by
  unfold GetProductsByRankByDate
  rcases hf : fetchData (GetProductsByRankByDate_query date limit) ph.APIKey w with ⟨⟨data, err⟩, w1⟩
  cases err with
  | some e => exact Or.inl ⟨e, rfl⟩
  | none => exact GetProductsByRankByDate_extract_cases fmtFloat data

/-- C11. Whatever the transport returns, each of the four list operations
returns either an error with an empty list or a nil error with a list: an
error never comes with Products, and a non-empty list never comes with an
error. -/
theorem C11_error_and_products_exclude_each_other {W : Type} (fmtFloat : Float64 → String)
    (fetchData : Fetch W) (ph : ProductHunt) (topic date : String) (limit : Int) (w : W) :
    (((GetDaily fmtFloat fetchData ph w).1.2 ≠ none →
        (GetDaily fmtFloat fetchData ph w).1.1 = [])
      ∧ ((GetDaily fmtFloat fetchData ph w).1.1 ≠ [] →
        (GetDaily fmtFloat fetchData ph w).1.2 = none))
    ∧ (((GetPostsByTopic fmtFloat fetchData ph topic w).1.2 ≠ none →
        (GetPostsByTopic fmtFloat fetchData ph topic w).1.1 = [])
      ∧ ((GetPostsByTopic fmtFloat fetchData ph topic w).1.1 ≠ [] →
        (GetPostsByTopic fmtFloat fetchData ph topic w).1.2 = none))
    ∧ (((GetTopProductsByDate fmtFloat fetchData ph date w).1.2 ≠ none →
        (GetTopProductsByDate fmtFloat fetchData ph date w).1.1 = [])
      ∧ ((GetTopProductsByDate fmtFloat fetchData ph date w).1.1 ≠ [] →
        (GetTopProductsByDate fmtFloat fetchData ph date w).1.2 = none))
    ∧ (((GetProductsByRankByDate fmtFloat fetchData ph date limit w).1.2 ≠ none →
        (GetProductsByRankByDate fmtFloat fetchData ph date limit w).1.1 = [])
      ∧ ((GetProductsByRankByDate fmtFloat fetchData ph date limit w).1.1 ≠ [] →
        (GetProductsByRankByDate fmtFloat fetchData ph date limit w).1.2 = none)) := by
  refine ⟨?_, ?_, ?_, ?_⟩
  · rcases GetDaily_cases fmtFloat fetchData ph w with ⟨err, h⟩ | ⟨products, h⟩ <;>
      simp [h]
  · rcases GetPostsByTopic_cases fmtFloat fetchData ph topic w with ⟨err, h⟩ | ⟨products, h⟩ <;>
      simp [h]
  · rcases GetTopProductsByDate_cases fmtFloat fetchData ph date w with
      ⟨err, h⟩ | ⟨products, h⟩ <;> simp [h]
  · rcases GetProductsByRankByDate_cases fmtFloat fetchData ph date limit w with
      ⟨err, h⟩ | ⟨products, h⟩ <;> simp [h]

/-- C11 at the response `{"data":{"posts":{}}}`, on which `GetProductsByRankByDate`
fails at `edges`: the list is empty. -/
theorem C11_error_and_products_exclude_each_other_witness :
    (GetProductsByRankByDate sampleFmtFloat
        (respond [("data", JSON.obj [("posts", JSON.obj [])])]) sampleClient "2024-01-01" 3 ()).1.2
      = some (GoError.errorf "invalid response format: missing 'edges'")
    ∧ (GetProductsByRankByDate sampleFmtFloat
        (respond [("data", JSON.obj [("posts", JSON.obj [])])]) sampleClient "2024-01-01" 3 ()).1.1
      = [] :=
  ⟨rfl, (C11_error_and_products_exclude_each_other sampleFmtFloat
    (respond [("data", JSON.obj [("posts", JSON.obj [])])]) sampleClient "tech" "2024-01-01" 3
    ()).2.2.2.1 (by decide)⟩

/-! ## C12: only the `data` member of the response is read -/

theorem GetDaily_extract_congr (fmtFloat : Float64 → String) {data1 data2 : GoMap}
    (h : mapIndex data1 "data" = mapIndex data2 "data") :
    GetDaily_extract fmtFloat data1 = GetDaily_extract fmtFloat data2 := by
  simp only [GetDaily_extract, h]

theorem GetProductDetails_extract_congr (fmtFloat : Float64 → String) {data1 data2 : GoMap}
    (h : mapIndex data1 "data" = mapIndex data2 "data") :
    GetProductDetails_extract fmtFloat data1 = GetProductDetails_extract fmtFloat data2 := by
  simp only [GetProductDetails_extract, h]

theorem GetPostsByTopic_extract_congr (fmtFloat : Float64 → String) {data1 data2 : GoMap}
    (h : mapIndex data1 "data" = mapIndex data2 "data") :
    GetPostsByTopic_extract fmtFloat data1 = GetPostsByTopic_extract fmtFloat data2 := by
  simp only [GetPostsByTopic_extract, h]

theorem GetTopProductsByDate_extract_congr (fmtFloat : Float64 → String) {data1 data2 : GoMap}
    (h : mapIndex data1 "data" = mapIndex data2 "data") :
    GetTopProductsByDate_extract fmtFloat data1 = GetTopProductsByDate_extract fmtFloat data2 := by
  simp only [GetTopProductsByDate_extract, h]

theorem GetProductsByRankByDate_extract_congr (fmtFloat : Float64 → String)
    {data1 data2 : GoMap} (h : mapIndex data1 "data" = mapIndex data2 "data") :
    GetProductsByRankByDate_extract fmtFloat data1
      = GetProductsByRankByDate_extract fmtFloat data2 := by
  simp only [GetProductsByRankByDate_extract, h]

/-- C12. Two responses with the same `data` member give, for each of the five
operations, the same result and the same error, whatever their other top-level
keys are. In particular a response that holds only an `errors` member is
reported like the empty response: with the error "invalid response format:
missing 'data'" and no result. -/
theorem C12_only_data_is_read {W : Type} (fmtFloat : Float64 → String)
    (fetchData1 fetchData2 : Fetch W) (ph : ProductHunt) (slug topic date : String)
    (limit : Int) (w w1 v v1 : W) (data1 data2 : GoMap)
    (hsame : mapIndex data1 "data" = mapIndex data2 "data") :
    (fetchData1 GetDaily_query ph.APIKey w = ((data1, none), w1) →
      fetchData2 GetDaily_query ph.APIKey v = ((data2, none), v1) →
      (GetDaily fmtFloat fetchData1 ph w).1 = (GetDaily fmtFloat fetchData2 ph v).1)
    ∧ (fetchData1 (GetProductDetails_query slug) ph.APIKey w = ((data1, none), w1) →
      fetchData2 (GetProductDetails_query slug) ph.APIKey v = ((data2, none), v1) →
      (GetProductDetails fmtFloat fetchData1 ph slug w).1
        = (GetProductDetails fmtFloat fetchData2 ph slug v).1)
    ∧ (fetchData1 (GetPostsByTopic_query topic) ph.APIKey w = ((data1, none), w1) →
      fetchData2 (GetPostsByTopic_query topic) ph.APIKey v = ((data2, none), v1) →
      (GetPostsByTopic fmtFloat fetchData1 ph topic w).1
        = (GetPostsByTopic fmtFloat fetchData2 ph topic v).1)
    ∧ (fetchData1 (GetTopProductsByDate_query date) ph.APIKey w = ((data1, none), w1) →
      fetchData2 (GetTopProductsByDate_query date) ph.APIKey v = ((data2, none), v1) →
      (GetTopProductsByDate fmtFloat fetchData1 ph date w).1
        = (GetTopProductsByDate fmtFloat fetchData2 ph date v).1)
    ∧ (fetchData1 (GetProductsByRankByDate_query date limit) ph.APIKey w = ((data1, none), w1) →
      fetchData2 (GetProductsByRankByDate_query date limit) ph.APIKey v = ((data2, none), v1) →
      (GetProductsByRankByDate fmtFloat fetchData1 ph date limit w).1
        = (GetProductsByRankByDate fmtFloat fetchData2 ph date limit v).1)
    ∧ ∀ errors : JSON,
        GetDaily_extract fmtFloat [("errors", errors)]
          = ([], some (GoError.errorf "invalid response format: missing 'data'"))
        ∧ GetProductDetails_extract fmtFloat [("errors", errors)]
          = (none, some (GoError.errorf "invalid response format: missing 'data'"))
        ∧ GetPostsByTopic_extract fmtFloat [("errors", errors)]
          = ([], some (GoError.errorf "invalid response format: missing 'data'"))
        ∧ GetTopProductsByDate_extract fmtFloat [("errors", errors)]
          = ([], some (GoError.errorf "invalid response format: missing 'data'"))
        ∧ GetProductsByRankByDate_extract fmtFloat [("errors", errors)]
          = ([], some (GoError.errorf "invalid response format: missing 'data'"))
        ∧ GetDaily_extract fmtFloat [("errors", errors)] = GetDaily_extract fmtFloat []
        ∧ GetProductDetails_extract fmtFloat [("errors", errors)]
          = GetProductDetails_extract fmtFloat []
        ∧ GetPostsByTopic_extract fmtFloat [("errors", errors)]
          = GetPostsByTopic_extract fmtFloat []
        ∧ GetTopProductsByDate_extract fmtFloat [("errors", errors)]
          = GetTopProductsByDate_extract fmtFloat []
        ∧ GetProductsByRankByDate_extract fmtFloat [("errors", errors)]
          = GetProductsByRankByDate_extract fmtFloat [] := by
  refine ⟨fun h1 h2 => ?_, fun h1 h2 => ?_, fun h1 h2 => ?_, fun h1 h2 => ?_, fun h1 h2 => ?_,
    fun errors => ⟨rfl, rfl, rfl, rfl, rfl, rfl, rfl, rfl, rfl, rfl⟩⟩
  · rw [GetDaily_of_fetch fmtFloat fetchData1 ph w w1 data1 h1,
      GetDaily_of_fetch fmtFloat fetchData2 ph v v1 data2 h2,
      GetDaily_extract_congr fmtFloat hsame]
  · rw [GetProductDetails_of_fetch fmtFloat fetchData1 ph slug w w1 data1 h1,
      GetProductDetails_of_fetch fmtFloat fetchData2 ph slug v v1 data2 h2,
      GetProductDetails_extract_congr fmtFloat hsame]
  · rw [GetPostsByTopic_of_fetch fmtFloat fetchData1 ph topic w w1 data1 h1,
      GetPostsByTopic_of_fetch fmtFloat fetchData2 ph topic v v1 data2 h2,
      GetPostsByTopic_extract_congr fmtFloat hsame]
  · rw [GetTopProductsByDate_of_fetch fmtFloat fetchData1 ph date w w1 data1 h1,
      GetTopProductsByDate_of_fetch fmtFloat fetchData2 ph date v v1 data2 h2,
      GetTopProductsByDate_extract_congr fmtFloat hsame]
  · rw [GetProductsByRankByDate_of_fetch fmtFloat fetchData1 ph date limit w w1 data1 h1,
      GetProductsByRankByDate_of_fetch fmtFloat fetchData2 ph date limit v v1 data2 h2,
      GetProductsByRankByDate_extract_congr fmtFloat hsame]

/-- C12 at the responses `{"data":{"posts":{"edges":[...]}}}` and the same with
an `errors` member in front: `GetDaily` returns the same for both. -/
theorem C12_only_data_is_read_witness :
    (GetDaily sampleFmtFloat (respond (envelope sampleEdges)) sampleClient ()).1
      = (GetDaily sampleFmtFloat
          (respond (("errors", JSON.arr [JSON.str "boom"]) :: envelope sampleEdges))
          sampleClient ()).1 :=
  (C12_only_data_is_read sampleFmtFloat (respond (envelope sampleEdges))
    (respond (("errors", JSON.arr [JSON.str "boom"]) :: envelope sampleEdges)) sampleClient
    "some-slug" "tech" "2024-01-01" 5 () () () () (envelope sampleEdges)
    (("errors", JSON.arr [JSON.str "boom"]) :: envelope sampleEdges) rfl).1 rfl rfl

/-! ## C13: the day window of the two date operations -/

theorem GetTopProductsByDate_query_eq (date : String) :
    GetTopProductsByDate_query date
      = "\n    query \x7b\n      "
        ++ "posts(order: RANKING, postedAfter: \"" ++ date ++ "T00:00:00Z\""
        ++ ", postedBefore: \"" ++ date ++ "T23:59:59Z\"" ++ ", first: 5)"
        ++ " \x7b\n        edges \x7b\n          node \x7b\n            id\n            name\n            tagline\n            description\n            website\n          \x7d\n        \x7d\n      \x7d\n    \x7d\n    " := by
  have h1 : "\n" ++ "    query \x7b\n" ++ "      posts(order: RANKING, postedAfter: \""
      = "\n    query \x7b\n      " ++ "posts(order: RANKING, postedAfter: \"" := rfl
  have h2 : "T00:00:00Z\", postedBefore: \"" = "T00:00:00Z\"" ++ ", postedBefore: \"" := rfl
  have h3 : "T23:59:59Z\", first: 5) \x7b\n"
      = "T23:59:59Z\"" ++ (", first: 5)" ++ " \x7b\n") := rfl
  have h4 : " \x7b\n        edges \x7b\n          node \x7b\n            id\n            name\n            tagline\n            description\n            website\n          \x7d\n        \x7d\n      \x7d\n    \x7d\n    "
      = " \x7b\n" ++ ("        edges \x7b\n" ++ ("          node \x7b\n" ++ ("            id\n"
        ++ ("            name\n" ++ ("            tagline\n" ++ ("            description\n"
        ++ ("            website\n" ++ ("          \x7d\n" ++ ("        \x7d\n"
        ++ ("      \x7d\n" ++ ("    \x7d\n" ++ "    "))))))))))) := rfl
  unfold GetTopProductsByDate_query
  rw [h1, h2, h3, h4]
  simp only [String.append_assoc]

theorem sprintD_ofNat (n : Nat) : sprintD (Int.ofNat n) = String.mk (Nat.toDigits 10 n) := rfl

theorem sprintD_negSucc (n : Nat) :
    sprintD (Int.negSucc n) = "-" ++ String.mk (Nat.toDigits 10 (n + 1)) := rfl

theorem GetProductsByRankByDate_query_eq (date : String) (limit : Int) :
    GetProductsByRankByDate_query date limit
      = "\n\tquery \x7b\n\t  "
        ++ "posts(order: RANKING, postedAfter: \"" ++ date ++ "T00:00:00Z\""
        ++ ", postedBefore: \"" ++ date ++ "T23:59:59Z\"" ++ ", first: " ++ sprintD limit ++ ")"
        ++ " \x7b\n\t    edges \x7b\n\t      node \x7b\n\t        id\n\t        name\n\t        tagline\n\t        description\n\t        website\n\t\t\turl\n\t      \x7d\n\t    \x7d\n\t  \x7d\n\t\x7d" := by
  have h1 : "\n" ++ "\tquery \x7b\n" ++ "\t  posts(order: RANKING, postedAfter: \""
      = "\n\tquery \x7b\n\t  " ++ "posts(order: RANKING, postedAfter: \"" := rfl
  have h2 : "\", postedBefore: \"" = "\"" ++ ", postedBefore: \"" := rfl
  have h3 : "T00:00:00Z\"" = "T00:00:00Z" ++ "\"" := rfl
  have h4 : "\", first: " = "\"" ++ ", first: " := rfl
  have h5 : "T23:59:59Z\"" = "T23:59:59Z" ++ "\"" := rfl
  have h6 : ") \x7b\n" = ")" ++ " \x7b\n" := rfl
  have h7 : " \x7b\n\t    edges \x7b\n\t      node \x7b\n\t        id\n\t        name\n\t        tagline\n\t        description\n\t        website\n\t\t\turl\n\t      \x7d\n\t    \x7d\n\t  \x7d\n\t\x7d"
      = " \x7b\n" ++ ("\t    edges \x7b\n" ++ ("\t      node \x7b\n" ++ ("\t        id\n"
        ++ ("\t        name\n" ++ ("\t        tagline\n" ++ ("\t        description\n"
        ++ ("\t        website\n" ++ ("\t\t\turl\n" ++ ("\t      \x7d\n" ++ ("\t    \x7d\n"
        ++ ("\t  \x7d\n" ++ "\t\x7d"))))))))))) := rfl
  simp only [GetProductsByRankByDate_query]
  rw [h1, h2, h3, h4, h5, h6, h7]
  simp only [String.append_assoc]

/-- C13. For every date `d` and every limit, the queries of
`GetTopProductsByDate` and `GetProductsByRankByDate` hold the one selection
`posts(order: RANKING, postedAfter: "dT00:00:00Z", postedBefore: "dT23:59:59Z",
first: N)`, with the same `d` in both bounds, between a fixed head and a fixed
tail: `N` is `5` for `GetTopProductsByDate` and the decimal text of `limit`
for `GetProductsByRankByDate`. -/
theorem C13_queries_ask_for_the_day_by_ranking (date : String) (limit : Int) :
    GetTopProductsByDate_query date
      = "\n    query \x7b\n      "
        ++ "posts(order: RANKING, postedAfter: \"" ++ date ++ "T00:00:00Z\""
        ++ ", postedBefore: \"" ++ date ++ "T23:59:59Z\"" ++ ", first: 5)"
        ++ " \x7b\n        edges \x7b\n          node \x7b\n            id\n            name\n            tagline\n            description\n            website\n          \x7d\n        \x7d\n      \x7d\n    \x7d\n    "
    ∧ GetProductsByRankByDate_query date limit
      = "\n\tquery \x7b\n\t  "
        ++ "posts(order: RANKING, postedAfter: \"" ++ date ++ "T00:00:00Z\""
        ++ ", postedBefore: \"" ++ date ++ "T23:59:59Z\"" ++ ", first: " ++ sprintD limit ++ ")"
        ++ " \x7b\n\t    edges \x7b\n\t      node \x7b\n\t        id\n\t        name\n\t        tagline\n\t        description\n\t        website\n\t\t\turl\n\t      \x7d\n\t    \x7d\n\t  \x7d\n\t\x7d"
    ∧ (∀ n : Nat, sprintD (Int.ofNat n) = String.mk (Nat.toDigits 10 n))
    ∧ (∀ n : Nat, sprintD (Int.negSucc n) = "-" ++ String.mk (Nat.toDigits 10 (n + 1))) :=
  ⟨GetTopProductsByDate_query_eq date, GetProductsByRankByDate_query_eq date limit,
    sprintD_ofNat, sprintD_negSucc⟩

/-! ## C14: parameters go into the query as they are -/

theorem GetProductDetails_query_eq (slug : String) :
    GetProductDetails_query slug
      = "\n    query \x7b\n      post(slug: \"" ++ slug
        ++ "\") \x7b\n        name\n        tagline\n        description\n        website\n      \x7d\n    \x7d\n    " := by
  have h1 : "\n" ++ "    query \x7b\n" ++ "      post(slug: \""
      = "\n    query \x7b\n      post(slug: \"" := rfl
  have h2 : "\") \x7b\n        name\n        tagline\n        description\n        website\n      \x7d\n    \x7d\n    "
      = "\") \x7b\n" ++ ("        name\n" ++ ("        tagline\n" ++ ("        description\n"
        ++ ("        website\n" ++ ("      \x7d\n" ++ ("    \x7d\n" ++ "    ")))))) := rfl
  unfold GetProductDetails_query
  rw [h1, h2]
  simp only [String.append_assoc]

set_option maxRecDepth 4096 in
theorem GetPostsByTopic_query_eq (topic : String) :
    GetPostsByTopic_query topic
      = "\n    query \x7b\n      posts(order: NEWEST, first: 99, topic: \"" ++ topic
        ++ "\") \x7b\n        edges \x7b\n          node \x7b\n            id\n            name\n            slug\n            tagline\n            description\n            website\n            url\n            thumbnail \x7b\n              url\n            \x7d\n          \x7d\n        \x7d\n      \x7d\n    \x7d\n    " := by
  have h1 : "\n" ++ "    query \x7b\n" ++ "      posts(order: NEWEST, first: 99, topic: \""
      = "\n    query \x7b\n      posts(order: NEWEST, first: 99, topic: \"" := rfl
  have h2 : "\") \x7b\n        edges \x7b\n          node \x7b\n            id\n            name\n            slug\n            tagline\n            description\n            website\n            url\n            thumbnail \x7b\n              url\n            \x7d\n          \x7d\n        \x7d\n      \x7d\n    \x7d\n    "
      = "\") \x7b\n" ++ ("        edges \x7b\n" ++ ("          node \x7b\n"
        ++ ("            id\n" ++ ("            name\n" ++ ("            slug\n"
        ++ ("            tagline\n" ++ ("            description\n" ++ ("            website\n"
        ++ ("            url\n" ++ ("            thumbnail \x7b\n" ++ ("              url\n"
        ++ ("            \x7d\n" ++ ("          \x7d\n" ++ ("        \x7d\n"
        ++ ("      \x7d\n" ++ ("    \x7d\n" ++ "    ")))))))))))))))) := rfl
  unfold GetPostsByTopic_query
  rw [h1, h2]
  simp only [String.append_assoc]

theorem GetTopProductsByDate_query_twice :
    ∃ p1 p2 p3 : String, ∀ date : String,
      GetTopProductsByDate_query date = p1 ++ date ++ p2 ++ date ++ p3 :=
  ⟨"\n    query \x7b\n      " ++ "posts(order: RANKING, postedAfter: \"",
    "T00:00:00Z\"" ++ ", postedBefore: \"",
    "T23:59:59Z\"" ++ ", first: 5)"
      ++ " \x7b\n        edges \x7b\n          node \x7b\n            id\n            name\n            tagline\n            description\n            website\n          \x7d\n        \x7d\n      \x7d\n    \x7d\n    ",
    fun date => by
      rw [GetTopProductsByDate_query_eq]
      simp only [String.append_assoc]⟩

/-- C14, refuted as stated for the date operations: the query of
`GetTopProductsByDate` is not a fixed prefix, the date, and a fixed suffix,
because the date stands in it twice: from the date "" to the date
"2024-01-01" the query grows by 20 characters, not by 10. -/
theorem C14_date_is_not_inserted_once :
    ¬ ∃ pre post : String, ∀ date : String,
        GetTopProductsByDate_query date = pre ++ date ++ post := by
  rintro ⟨pre, post, h⟩
  obtain ⟨p1, p2, p3, hq⟩ := GetTopProductsByDate_query_twice
  have h0 := congrArg String.length ((hq "").symm.trans (h ""))
  have h1 := congrArg String.length ((hq "2024-01-01").symm.trans (h "2024-01-01"))
  have l2 : ("2024-01-01" : String).length = 10 := rfl
  have l3 : ("" : String).length = 0 := rfl
  simp only [String.length_append, l3] at h0
  simp only [String.length_append, l2] at h1
  omega

theorem GetProductsByRankByDate_query_twice (limit : Int) :
    ∃ p1 p2 p3 : String, ∀ date : String,
      GetProductsByRankByDate_query date limit = p1 ++ date ++ p2 ++ date ++ p3 :=
  ⟨"\n\tquery \x7b\n\t  " ++ "posts(order: RANKING, postedAfter: \"",
    "T00:00:00Z\"" ++ ", postedBefore: \"",
    "T23:59:59Z\"" ++ ", first: " ++ sprintD limit ++ ")"
      ++ " \x7b\n\t    edges \x7b\n\t      node \x7b\n\t        id\n\t        name\n\t        tagline\n\t        description\n\t        website\n\t\t\turl\n\t      \x7d\n\t    \x7d\n\t  \x7d\n\t\x7d",
    fun date => by
      rw [GetProductsByRankByDate_query_eq]
      simp only [String.append_assoc]⟩

/-! ### The world after an operation is the world after its one transport call -/

theorem GetDaily_world {W : Type} (fmtFloat : Float64 → String) (fetchData : Fetch W)
    (ph : ProductHunt) (w : W) :
    (GetDaily fmtFloat fetchData ph w).2 = (fetchData GetDaily_query ph.APIKey w).2 := by
  unfold GetDaily
  rcases hf : fetchData GetDaily_query ph.APIKey w with ⟨⟨data, err⟩, w1⟩
  cases err <;> rfl

theorem GetProductDetails_world {W : Type} (fmtFloat : Float64 → String) (fetchData : Fetch W)
    (ph : ProductHunt) (slug : String) (w : W) :
    (GetProductDetails fmtFloat fetchData ph slug w).2
      = (fetchData (GetProductDetails_query slug) ph.APIKey w).2 := by
  unfold GetProductDetails
  rcases hf : fetchData (GetProductDetails_query slug) ph.APIKey w with ⟨⟨data, err⟩, w1⟩
  cases err <;> rfl

theorem GetPostsByTopic_world {W : Type} (fmtFloat : Float64 → String) (fetchData : Fetch W)
    (ph : ProductHunt) (topic : String) (w : W) :
    (GetPostsByTopic fmtFloat fetchData ph topic w).2
      = (fetchData (GetPostsByTopic_query topic) ph.APIKey w).2 := by
  unfold GetPostsByTopic
  rcases hf : fetchData (GetPostsByTopic_query topic) ph.APIKey w with ⟨⟨data, err⟩, w1⟩
  cases err <;> rfl

theorem GetTopProductsByDate_world {W : Type} (fmtFloat : Float64 → String)
    (fetchData : Fetch W) (ph : ProductHunt) (date : String) (w : W) :
    (GetTopProductsByDate fmtFloat fetchData ph date w).2
      = (fetchData (GetTopProductsByDate_query date) ph.APIKey w).2 := by
  unfold GetTopProductsByDate
  rcases hf : fetchData (GetTopProductsByDate_query date) ph.APIKey w with ⟨⟨data, err⟩, w1⟩
  cases err <;> rfl

theorem GetProductsByRankByDate_world {W : Type} (fmtFloat : Float64 → String)
    (fetchData : Fetch W) (ph : ProductHunt) (date : String) (limit : Int) (w : W) :
    (GetProductsByRankByDate fmtFloat fetchData ph date limit w).2
      = (fetchData (GetProductsByRankByDate_query date limit) ph.APIKey w).2 := by
  unfold GetProductsByRankByDate
  rcases hf : fetchData (GetProductsByRankByDate_query date limit) ph.APIKey w with
    ⟨⟨data, err⟩, w1⟩
  cases err <;> rfl

/-- C14, amended. The slug and the topic stand once in their query, between
a fixed prefix and a fixed suffix; the date stands twice in the query of each
date operation, between three fixed pieces (for `GetProductsByRankByDate`, fixed
once the limit is). The parameter is put in as it is: a slug with a double
quote appears unescaped, and for every parameter value the operation makes
its transport call with that query. -/
theorem C14_parameters_inserted_verbatim (fmtFloat : Float64 → String) :
    (∃ pre post : String, ∀ slug : String,
      GetProductDetails_query slug = pre ++ slug ++ post)
    ∧ (∃ pre post : String, ∀ topic : String,
      GetPostsByTopic_query topic = pre ++ topic ++ post)
    ∧ (∃ p1 p2 p3 : String, ∀ date : String,
      GetTopProductsByDate_query date = p1 ++ date ++ p2 ++ date ++ p3)
    ∧ (∀ limit : Int, ∃ p1 p2 p3 : String, ∀ date : String,
      GetProductsByRankByDate_query date limit = p1 ++ date ++ p2 ++ date ++ p3)
    ∧ GetProductDetails_query "a\"b"
      = "\n    query \x7b\n      post(slug: \"a\"b\") \x7b\n        name\n        tagline\n        description\n        website\n      \x7d\n    \x7d\n    "
    ∧ (∀ (answer : String → String → GoMap × Option GoError) (ph : ProductHunt)
        (log : List (String × String)) (slug topic date : String) (limit : Int),
      (GetProductDetails fmtFloat (recording answer) ph slug log).2
          = log ++ [(GetProductDetails_query slug, ph.APIKey)]
        ∧ (GetPostsByTopic fmtFloat (recording answer) ph topic log).2
          = log ++ [(GetPostsByTopic_query topic, ph.APIKey)]
        ∧ (GetTopProductsByDate fmtFloat (recording answer) ph date log).2
          = log ++ [(GetTopProductsByDate_query date, ph.APIKey)]
        ∧ (GetProductsByRankByDate fmtFloat (recording answer) ph date limit log).2
          = log ++ [(GetProductsByRankByDate_query date limit, ph.APIKey)]) := by
  refine ⟨⟨_, _, GetProductDetails_query_eq⟩, ⟨_, _, GetPostsByTopic_query_eq⟩,
    GetTopProductsByDate_query_twice, GetProductsByRankByDate_query_twice, rfl, ?_⟩
  intro answer ph log slug topic date limit
  exact ⟨GetProductDetails_world fmtFloat (recording answer) ph slug log,
    GetPostsByTopic_world fmtFloat (recording answer) ph topic log,
    GetTopProductsByDate_world fmtFloat (recording answer) ph date log,
    GetProductsByRankByDate_world fmtFloat (recording answer) ph date limit log⟩

/-! ## C15: a transport error is handed back as it is -/

/-- C15. When the transport call of an operation fails with the error `e`,
the operation returns that same `e` with a nil list (no Product for
`GetProductDetails`), whatever map came with the error, and the world is the
one the single call left. With a transport that records its calls, each
operation adds exactly one call to the log, whatever the answer is. -/
theorem C15_transport_error_returned_once {W : Type} (fmtFloat : Float64 → String)
    (fetchData : Fetch W) (ph : ProductHunt) (slug topic date : String) (limit : Int)
    (w w1 : W) (data : GoMap) (e : GoError) :
    (fetchData GetDaily_query ph.APIKey w = ((data, some e), w1) →
      GetDaily fmtFloat fetchData ph w = (([], some e), w1))
    ∧ (fetchData (GetProductDetails_query slug) ph.APIKey w = ((data, some e), w1) →
      GetProductDetails fmtFloat fetchData ph slug w = ((none, some e), w1))
    ∧ (fetchData (GetPostsByTopic_query topic) ph.APIKey w = ((data, some e), w1) →
      GetPostsByTopic fmtFloat fetchData ph topic w = (([], some e), w1))
    ∧ (fetchData (GetTopProductsByDate_query date) ph.APIKey w = ((data, some e), w1) →
      GetTopProductsByDate fmtFloat fetchData ph date w = (([], some e), w1))
    ∧ (fetchData (GetProductsByRankByDate_query date limit) ph.APIKey w
        = ((data, some e), w1) →
      GetProductsByRankByDate fmtFloat fetchData ph date limit w = (([], some e), w1))
    ∧ (∀ (answer : String → String → GoMap × Option GoError) (log : List (String × String)),
      (GetDaily fmtFloat (recording answer) ph log).2 = log ++ [(GetDaily_query, ph.APIKey)]
        ∧ (GetProductDetails fmtFloat (recording answer) ph slug log).2
          = log ++ [(GetProductDetails_query slug, ph.APIKey)]
        ∧ (GetPostsByTopic fmtFloat (recording answer) ph topic log).2
          = log ++ [(GetPostsByTopic_query topic, ph.APIKey)]
        ∧ (GetTopProductsByDate fmtFloat (recording answer) ph date log).2
          = log ++ [(GetTopProductsByDate_query date, ph.APIKey)]
        ∧ (GetProductsByRankByDate fmtFloat (recording answer) ph date limit log).2
          = log ++ [(GetProductsByRankByDate_query date limit, ph.APIKey)]) := by
  refine ⟨fun h => ?_, fun h => ?_, fun h => ?_, fun h => ?_, fun h => ?_, fun answer log => ?_⟩
  · simp [GetDaily, h]
  · simp [GetProductDetails, h]
  · simp [GetPostsByTopic, h]
  · simp [GetTopProductsByDate, h]
  · simp [GetProductsByRankByDate, h]
  · exact ⟨GetDaily_world fmtFloat (recording answer) ph log,
      GetProductDetails_world fmtFloat (recording answer) ph slug log,
      GetPostsByTopic_world fmtFloat (recording answer) ph topic log,
      GetTopProductsByDate_world fmtFloat (recording answer) ph date log,
      GetProductsByRankByDate_world fmtFloat (recording answer) ph date limit log⟩

/-- C15 at a recording transport that fails every call with "timeout":
`GetDaily` returns that error and a nil list, and the log holds one call. -/
theorem C15_transport_error_returned_once_witness :
    GetDaily sampleFmtFloat (recording (answerError "timeout")) sampleClient []
      = (([], some (GoError.transport "timeout")), [(GetDaily_query, "key")]) :=
  (C15_transport_error_returned_once sampleFmtFloat (recording (answerError "timeout"))
    sampleClient "some-slug" "tech" "2024-01-01" 5 [] [(GetDaily_query, "key")] []
    (GoError.transport "timeout")).1 rfl

/-! ## C16: `GetProductDetails` and the type of `post` -/

/-- C16. When `data` is a mapping, `GetProductDetails` returns a Product
exactly when `data.post` is a mapping. A `post` of any other type (string,
number, boolean, list, null or absent) gives no Product and a nil error. A
`post` that is the empty mapping gives a Product whose Name, Tagline,
Description and Website are all "<nil>". -/
theorem C16_product_iff_post_is_mapping {W : Type} (fmtFloat : Float64 → String)
    (fetchData : Fetch W) (ph : ProductHunt) (slug : String) (w w1 : W)
    (data dataMap : GoMap)
    (hdata : mapIndex data "data" = JSON.obj dataMap)
    (hfetch : fetchData (GetProductDetails_query slug) ph.APIKey w = ((data, none), w1)) :
    ((∃ p, (GetProductDetails fmtFloat fetchData ph slug w).1.1 = some p)
        ↔ ∃ post : GoMap, mapIndex dataMap "post" = JSON.obj post)
    ∧ ((∀ post : GoMap, mapIndex dataMap "post" ≠ JSON.obj post) →
        GetProductDetails fmtFloat fetchData ph slug w = ((none, none), w1))
    ∧ (∀ post : GoMap, mapIndex dataMap "post" = JSON.obj post →
        GetProductDetails fmtFloat fetchData ph slug w
          = ((some { Name := sprintV fmtFloat (mapIndex post "name"),
                     Tagline := sprintV fmtFloat (mapIndex post "tagline"),
                     Description := sprintV fmtFloat (mapIndex post "description"),
                     Website := sprintV fmtFloat (mapIndex post "website") }, none), w1))
    ∧ (mapIndex dataMap "post" = JSON.obj [] →
        GetProductDetails fmtFloat fetchData ph slug w
          = ((some { Name := "<nil>", Tagline := "<nil>", Description := "<nil>",
                     Website := "<nil>" }, none), w1)) := by
  have hd : asMap (mapIndex data "data") = some dataMap := by rw [hdata]; rfl
  have hop := GetProductDetails_of_fetch fmtFloat fetchData ph slug w w1 data hfetch
  have hsome : ∀ post : GoMap, mapIndex dataMap "post" = JSON.obj post →
      GetProductDetails fmtFloat fetchData ph slug w
        = ((some (GetProductDetails_product fmtFloat post), none), w1) := by
    intro post hpost
    have hp : asMap (mapIndex dataMap "post") = some post := by rw [hpost]; rfl
    rw [hop]
    simp [GetProductDetails_extract, hd, hp]
  have hnone : (∀ post : GoMap, mapIndex dataMap "post" ≠ JSON.obj post) →
      GetProductDetails fmtFloat fetchData ph slug w = ((none, none), w1) := by
    intro hno
    have hp : asMap (mapIndex dataMap "post") = none := by
      cases h : asMap (mapIndex dataMap "post") with
      | none => rfl
      | some post => exact absurd (asMap_eq_some.mp h) (hno post)
    rw [hop]
    simp [GetProductDetails_extract, hd, hp]
  refine ⟨⟨?_, ?_⟩, hnone, ?_, ?_⟩
  · rintro ⟨p, hp⟩
    by_contra hno
    have hno2 : ∀ post : GoMap, mapIndex dataMap "post" ≠ JSON.obj post :=
      fun post h => hno ⟨post, h⟩
    rw [hnone hno2] at hp
    simp at hp
  · rintro ⟨post, hpost⟩
    exact ⟨_, by rw [hsome post hpost]⟩
  · intro post hpost
    rw [hsome post hpost]
    rfl
  · intro hpost
    rw [hsome [] hpost]
    rfl

/-- C16 at the response `{"data":{"post":"gone"}}`, whose `post` is a string:
no Product and a nil error. -/
theorem C16_product_iff_post_is_mapping_witness :
    GetProductDetails sampleFmtFloat
        (respond [("data", JSON.obj [("post", JSON.str "gone")])]) sampleClient "some-slug" ()
      = ((none, none), ()) :=
  (C16_product_iff_post_is_mapping sampleFmtFloat
    (respond [("data", JSON.obj [("post", JSON.str "gone")])]) sampleClient "some-slug" () ()
    [("data", JSON.obj [("post", JSON.str "gone")])] [("post", JSON.str "gone")] rfl rfl).2.1
    (fun _ h => JSON.noConfusion h)

/-! ## C17: the three three-field extractions agree -/

theorem GetDaily_extract_eq_GetTopProductsByDate_extract (fmtFloat : Float64 → String)
    (data : GoMap) :
    GetDaily_extract fmtFloat data = GetTopProductsByDate_extract fmtFloat data := by
  have hprod : GetDaily_product fmtFloat = GetTopProductsByDate_product fmtFloat := rfl
  simp only [GetDaily_extract, GetTopProductsByDate_extract, GetDaily_loop_eq,
    GetTopProductsByDate_loop_eq, hprod]

theorem GetProductsByRankByDate_extract_cleared (fmtFloat : Float64 → String) (data : GoMap) :
    (GetProductsByRankByDate_extract fmtFloat data).2
        = (GetTopProductsByDate_extract fmtFloat data).2
      ∧ (GetProductsByRankByDate_extract fmtFloat data).1.map
          (fun p => { p with Description := "", Website := "", URL := "" })
        = (GetTopProductsByDate_extract fmtFloat data).1 := by
  unfold GetProductsByRankByDate_extract GetTopProductsByDate_extract
  cases hd : asMap (mapIndex data "data") with
  | none => exact ⟨rfl, rfl⟩
  | some dataMap =>
    cases hp : asMap (mapIndex dataMap "posts") with
    | none => simp [hp]
    | some posts =>
      cases he : asSlice (mapIndex posts "edges") with
      | none => simp [hp, he]
      | some edges =>
        simp only [hp, he, GetProductsByRankByDate_loop_eq, GetTopProductsByDate_loop_eq,
          List.nil_append, productsOf_eq_map, List.map_map, true_and]
        rfl

/-- C17. On every response the extraction of `GetDaily` and that of
`GetTopProductsByDate` return the same. The extraction of
`GetProductsByRankByDate` returns the same error as that of
`GetTopProductsByDate` and a list of the same length that becomes the list of
`GetTopProductsByDate`, Product by Product in order, once Description, Website
and URL are emptied: the two agree on ID, Name and Tagline and differ in
nothing but those three fields. The same holds of the operations whenever the
transport answers them with the same response. -/
theorem C17_three_field_extractions_agree {W : Type} (fmtFloat : Float64 → String)
    (fetchData : Fetch W) (ph : ProductHunt) (date : String) (limit : Int)
    (w w1 w2 w3 : W) (data : GoMap) :
    GetDaily_extract fmtFloat data = GetTopProductsByDate_extract fmtFloat data
    ∧ (GetProductsByRankByDate_extract fmtFloat data).2
        = (GetTopProductsByDate_extract fmtFloat data).2
    ∧ (GetProductsByRankByDate_extract fmtFloat data).1.length
        = (GetTopProductsByDate_extract fmtFloat data).1.length
    ∧ (GetProductsByRankByDate_extract fmtFloat data).1.map
          (fun p => { p with Description := "", Website := "", URL := "" })
        = (GetTopProductsByDate_extract fmtFloat data).1
    ∧ (fetchData GetDaily_query ph.APIKey w = ((data, none), w1) →
        fetchData (GetTopProductsByDate_query date) ph.APIKey w = ((data, none), w2) →
        fetchData (GetProductsByRankByDate_query date limit) ph.APIKey w = ((data, none), w3) →
        (GetDaily fmtFloat fetchData ph w).1
            = (GetTopProductsByDate fmtFloat fetchData ph date w).1
          ∧ (GetProductsByRankByDate fmtFloat fetchData ph date limit w).1.2
            = (GetTopProductsByDate fmtFloat fetchData ph date w).1.2
          ∧ (GetProductsByRankByDate fmtFloat fetchData ph date limit w).1.1.length
            = (GetTopProductsByDate fmtFloat fetchData ph date w).1.1.length
          ∧ ∀ (i : Nat) (p q : Product),
              (GetProductsByRankByDate fmtFloat fetchData ph date limit w).1.1[i]? = some p →
              (GetTopProductsByDate fmtFloat fetchData ph date w).1.1[i]? = some q →
              p.ID = q.ID ∧ p.Name = q.Name ∧ p.Tagline = q.Tagline ∧ p.Slug = q.Slug
                ∧ p.Thumbnail = q.Thumbnail) := by
  have hc := GetProductsByRankByDate_extract_cleared fmtFloat data
  have hlen : (GetProductsByRankByDate_extract fmtFloat data).1.length
      = (GetTopProductsByDate_extract fmtFloat data).1.length := by
    rw [← hc.2, List.length_map]
  refine ⟨GetDaily_extract_eq_GetTopProductsByDate_extract fmtFloat data, hc.1, hlen, hc.2, ?_⟩
  intro h1 h2 h3
  rw [GetDaily_of_fetch fmtFloat fetchData ph w w1 data h1,
    GetTopProductsByDate_of_fetch fmtFloat fetchData ph date w w2 data h2,
    GetProductsByRankByDate_of_fetch fmtFloat fetchData ph date limit w w3 data h3]
  refine ⟨GetDaily_extract_eq_GetTopProductsByDate_extract fmtFloat data, hc.1, hlen, ?_⟩
  intro i p q hp hq
  have hq2 := hq
  rw [← hc.2, List.getElem?_map, hp] at hq2
  simp only [Option.map_some', Option.some.injEq] at hq2
  subst hq2
  exact ⟨rfl, rfl, rfl, rfl, rfl⟩

/-- C17 at the response with one full node (all eight members): the three
operations return one Product each, with the same ID, Name and Tagline. -/
theorem C17_three_field_extractions_agree_witness :
    (GetDaily sampleFmtFloat (respond (envelope [JSON.obj [("node", JSON.obj fullNode)]]))
        sampleClient ()).1
      = (GetTopProductsByDate sampleFmtFloat
          (respond (envelope [JSON.obj [("node", JSON.obj fullNode)]]))
          sampleClient "2024-01-01" ()).1
    ∧ (GetProductsByRankByDate sampleFmtFloat
          (respond (envelope [JSON.obj [("node", JSON.obj fullNode)]]))
          sampleClient "2024-01-01" 3 ()).1.1
      = [{ ID := "1", Name := "A", Tagline := "t", Description := "d", Website := "w",
           URL := "u" }]
    ∧ (GetTopProductsByDate sampleFmtFloat
          (respond (envelope [JSON.obj [("node", JSON.obj fullNode)]]))
          sampleClient "2024-01-01" ()).1.1
      = [{ ID := "1", Name := "A", Tagline := "t" }] :=
  ⟨((C17_three_field_extractions_agree sampleFmtFloat
      (respond (envelope [JSON.obj [("node", JSON.obj fullNode)]])) sampleClient
      "2024-01-01" 3 () () () () (envelope [JSON.obj [("node", JSON.obj fullNode)]])).2.2.2.2
      rfl rfl rfl).1, rfl, rfl⟩

/-! ## C18: the thumbnail is the text of `thumbnail.url` -/

theorem append_ne_empty_of_left (a b : String) (h : a ≠ "") : a ++ b ≠ "" := by
  intro hab
  apply h
  have hdata := congrArg String.data hab
  rw [String.data_append] at hdata
  have ha : a.data = [] := (List.append_eq_nil.mp hdata).1
  exact String.ext ha

theorem sprintV_eq_empty_iff (fmtFloat : Float64 → String) (hfloat : ∀ f, fmtFloat f ≠ "")
    (v : JSON) : sprintV fmtFloat v = "" ↔ v = JSON.str "" := by
  cases v with
  | null => simp [sprintV]
  | bool b => cases b <;> simp [sprintV]
  | num f => simp [sprintV, hfloat f]
  | str s => simp [sprintV]
  | arr xs =>
    simp only [sprintV, false_iff, reduceCtorEq]
    rw [String.append_assoc]
    exact iff_false_intro (append_ne_empty_of_left "[" _ (by decide))
  | obj kvs =>
    simp only [sprintV, false_iff, reduceCtorEq]
    rw [String.append_assoc]
    exact iff_false_intro (append_ne_empty_of_left "map[" _ (by decide))

theorem GetPostsByTopic_thumbnailUrl_of_map (fmtFloat : Float64 → String) (node thumbMap : GoMap)
    (h : mapIndex node "thumbnail" = JSON.obj thumbMap) :
    GetPostsByTopic_thumbnailUrl fmtFloat node = sprintV fmtFloat (mapIndex thumbMap "url") := by
  unfold GetPostsByTopic_thumbnailUrl
  cases ht : mapGet node "thumbnail" with
  | none => simp [mapIndex, ht] at h
  | some thumb =>
    have hthumb : thumb = JSON.obj thumbMap := by simpa [mapIndex, ht] using h
    subst hthumb
    simp [asMap]

/-- C18. In `GetPostsByTopic`, for the node of a well-formed edge: its Product
is returned; when the node's `thumbnail` is a mapping the Thumbnail is the
`%v` text of that mapping's `url`, which is "<nil>" when `url` is absent or
null; and (no float being rendered as the empty text) the Thumbnail is the
empty string exactly when `thumbnail` is not a mapping or its `url` is the
empty string. -/
theorem C18_thumbnail_is_text_of_url {W : Type} (fmtFloat : Float64 → String)
    (fetchData : Fetch W) (ph : ProductHunt) (topic : String) (w w1 : W)
    (data : GoMap) (edges : List JSON) (node : GoMap)
    (hfloat : ∀ f, fmtFloat f ≠ "")
    (hfetch : fetchData (GetPostsByTopic_query topic) ph.APIKey w = ((data, none), w1))
    (hedges : edgesOf data = some edges)
    (hnode : node ∈ edges.filterMap edgeNode) :
    GetPostsByTopic_product fmtFloat node ∈ (GetPostsByTopic fmtFloat fetchData ph topic w).1.1
    ∧ (∀ thumbMap : GoMap, mapIndex node "thumbnail" = JSON.obj thumbMap →
        (GetPostsByTopic_product fmtFloat node).Thumbnail
          = sprintV fmtFloat (mapIndex thumbMap "url"))
    ∧ (∀ thumbMap : GoMap, mapIndex node "thumbnail" = JSON.obj thumbMap →
        mapIndex thumbMap "url" = JSON.null →
        (GetPostsByTopic_product fmtFloat node).Thumbnail = "<nil>")
    ∧ ((GetPostsByTopic_product fmtFloat node).Thumbnail = ""
        ↔ (∀ thumbMap : GoMap, mapIndex node "thumbnail" ≠ JSON.obj thumbMap)
          ∨ ∃ thumbMap : GoMap, mapIndex node "thumbnail" = JSON.obj thumbMap
              ∧ mapIndex thumbMap "url" = JSON.str "") := by
  have hthumb : (GetPostsByTopic_product fmtFloat node).Thumbnail
      = GetPostsByTopic_thumbnailUrl fmtFloat node := rfl
  refine ⟨?_, ?_, ?_, ?_⟩
  · rw [GetPostsByTopic_of_fetch fmtFloat fetchData ph topic w w1 data hfetch,
      GetPostsByTopic_extract_edges fmtFloat hedges]
    exact mem_productsOf _ edges node hnode
  · intro thumbMap hmap
    rw [hthumb, GetPostsByTopic_thumbnailUrl_of_map fmtFloat node thumbMap hmap]
  · intro thumbMap hmap hurl
    rw [hthumb, GetPostsByTopic_thumbnailUrl_of_map fmtFloat node thumbMap hmap, hurl]
    rfl
  · rw [hthumb]
    constructor
    · intro hempty
      by_cases hm : ∃ thumbMap : GoMap, mapIndex node "thumbnail" = JSON.obj thumbMap
      · obtain ⟨thumbMap, hmap⟩ := hm
        rw [GetPostsByTopic_thumbnailUrl_of_map fmtFloat node thumbMap hmap] at hempty
        exact Or.inr ⟨thumbMap, hmap, (sprintV_eq_empty_iff fmtFloat hfloat _).mp hempty⟩
      · exact Or.inl fun thumbMap hmap => hm ⟨thumbMap, hmap⟩
    · rintro (hno | ⟨thumbMap, hmap, hurl⟩)
      · exact GetPostsByTopic_thumbnailUrl_of_not_map fmtFloat node hno
      · rw [GetPostsByTopic_thumbnailUrl_of_map fmtFloat node thumbMap hmap, hurl]
        rfl

/-- C18 at `GetPostsByTopic` and the node `{"id":"7","thumbnail":{"url":null}}`: the
Thumbnail is "<nil>", not the empty string. -/
theorem C18_thumbnail_is_text_of_url_witness :
    GetPostsByTopic_product sampleFmtFloat nullThumbNode
        ∈ (GetPostsByTopic sampleFmtFloat
            (respond (envelope [JSON.obj [("node", JSON.obj nullThumbNode)]]))
            sampleClient "tech" ()).1.1
    ∧ (GetPostsByTopic_product sampleFmtFloat nullThumbNode).Thumbnail = "<nil>" :=
  ⟨(C18_thumbnail_is_text_of_url sampleFmtFloat
      (respond (envelope [JSON.obj [("node", JSON.obj nullThumbNode)]])) sampleClient "tech"
      () () (envelope [JSON.obj [("node", JSON.obj nullThumbNode)]])
      [JSON.obj [("node", JSON.obj nullThumbNode)]] nullThumbNode
      (fun _ => (by decide : ("0" : String) ≠ "")) rfl rfl (List.mem_cons_self _ _)).1,
   (C18_thumbnail_is_text_of_url sampleFmtFloat
      (respond (envelope [JSON.obj [("node", JSON.obj nullThumbNode)]])) sampleClient "tech"
      () () (envelope [JSON.obj [("node", JSON.obj nullThumbNode)]])
      [JSON.obj [("node", JSON.obj nullThumbNode)]] nullThumbNode
      (fun _ => (by decide : ("0" : String) ≠ "")) rfl rfl (List.mem_cons_self _ _)).2.2.1
      [("url", JSON.null)] rfl rfl⟩

/-! ## C19: the extraction has an outcome on every response -/

theorem GetProductDetails_extract_cases (fmtFloat : Float64 → String) (data : GoMap) :
    (∃ err, GetProductDetails_extract fmtFloat data = (none, some err))
      ∨ GetProductDetails_extract fmtFloat data = (none, none)
      ∨ ∃ p, GetProductDetails_extract fmtFloat data = (some p, none) := by
  unfold GetProductDetails_extract
  cases hd : asMap (mapIndex data "data") with
  | none => exact Or.inl ⟨_, rfl⟩
  | some dataMap =>
    cases hp : asMap (mapIndex dataMap "post") with
    | none => exact Or.inr (Or.inl (by simp [hp]))
    | some post =>
      exact Or.inr (Or.inr ⟨GetProductDetails_product fmtFloat post, by simp [hp]⟩)

theorem GetProductDetails_cases {W : Type} (fmtFloat : Float64 → String) (fetchData : Fetch W)
    (ph : ProductHunt) (slug : String) (w : W) :
    (∃ err, (GetProductDetails fmtFloat fetchData ph slug w).1 = (none, some err))
      ∨ (GetProductDetails fmtFloat fetchData ph slug w).1 = (none, none)
      ∨ ∃ p, (GetProductDetails fmtFloat fetchData ph slug w).1 = (some p, none) := by
  unfold GetProductDetails
  rcases hf : fetchData (GetProductDetails_query slug) ph.APIKey w with ⟨⟨data, err⟩, w1⟩
  cases err with
  | some e => exact Or.inl ⟨e, rfl⟩
  | none => exact GetProductDetails_extract_cases fmtFloat data

/-! ### No run of the extraction ends in a panic -/

theorem typeAssertMap_commaOk (v : JSON) :
    typeAssertMap AssertForm.commaOk v = pure (asMap v, (asMap v).isSome) := by
  unfold typeAssertMap
  cases asMap v <;> rfl

theorem typeAssertSlice_commaOk (v : JSON) :
    typeAssertSlice AssertForm.commaOk v = pure ((asSlice v).getD [], (asSlice v).isSome) := by
  unfold typeAssertSlice
  cases asSlice v <;> rfl

theorem nilableIndex_some (m : GoMap) (k : String) : nilableIndex (some m) k = mapIndex m k :=
  rfl

theorem nilableIndex_getD (m : Option GoMap) (k : String) :
    nilableIndex m k = mapIndex (m.getD []) k := by
  cases m <;> rfl

theorem GetPostsByTopic_thumbnailUrl_checked_eq (fmtFloat : Float64 → String) (node : GoMap) :
    GetPostsByTopic_thumbnailUrl_checked fmtFloat (some node)
      = Except.ok (GetPostsByTopic_thumbnailUrl fmtFloat node) := by
  unfold GetPostsByTopic_thumbnailUrl_checked GetPostsByTopic_thumbnailUrl
  simp only [nilableGet]
  cases ht : mapGet node "thumbnail" with
  | none => rfl
  | some thumb =>
    simp only [typeAssertMap_commaOk, pure_bind]
    cases hm : asMap thumb with
    | none => rfl
    | some thumbMap => rfl

theorem GetDaily_loop_checked_eq (fmtFloat : Float64 → String) (edges : List JSON)
    (products : List Product) :
    GetDaily_loop_checked fmtFloat edges products
      = Except.ok (GetDaily_loop fmtFloat edges products) := by
  induction edges generalizing products with
  | nil => rfl
  | cons edge edges ih =>
    simp only [GetDaily_loop_checked, GetDaily_loop, typeAssertMap_commaOk, pure_bind]
    cases hm : asMap edge with
    | none => simp [ih]
    | some edgeMap =>
      cases hn : asMap (mapIndex edgeMap "node") with
      | none => simp [ih, hn, nilableIndex_some]
      | some node =>
        simp [ih, hn, nilableIndex_some]
        rfl

theorem GetDaily_extract_checked_eq (fmtFloat : Float64 → String) (data : Option GoMap) :
    GetDaily_extract_checked fmtFloat data
      = Except.ok (GetDaily_extract fmtFloat (data.getD [])) := by
  simp only [GetDaily_extract_checked, GetDaily_extract, typeAssertMap_commaOk,
    typeAssertSlice_commaOk, pure_bind, nilableIndex_getD data, GetDaily_loop_checked_eq]
  cases hd : asMap (mapIndex (data.getD []) "data") with
  | none => rfl
  | some dataMap =>
    cases hp : asMap (mapIndex dataMap "posts") with
    | none =>
      simp [hp, nilableIndex_some]
      rfl
    | some posts =>
      cases he : asSlice (mapIndex posts "edges") with
      | none =>
        simp [hp, he, nilableIndex_some]
        rfl
      | some edges => simp [hp, he, nilableIndex_some, GetDaily_loop_checked_eq]

theorem GetProductDetails_extract_checked_eq (fmtFloat : Float64 → String)
    (data : Option GoMap) :
    GetProductDetails_extract_checked fmtFloat data
      = Except.ok (GetProductDetails_extract fmtFloat (data.getD [])) := by
  simp only [GetProductDetails_extract_checked, GetProductDetails_extract,
    typeAssertMap_commaOk, pure_bind, nilableIndex_getD data]
  cases hd : asMap (mapIndex (data.getD []) "data") with
  | none => rfl
  | some dataMap =>
    cases hp : asMap (mapIndex dataMap "post") with
    | none =>
      simp [hp, nilableIndex_some]
      rfl
    | some post =>
      simp [hp, nilableIndex_some]
      rfl

theorem GetPostsByTopic_loop_checked_eq (fmtFloat : Float64 → String) (edges : List JSON)
    (products : List Product) :
    GetPostsByTopic_loop_checked fmtFloat edges products
      = Except.ok (GetPostsByTopic_loop fmtFloat edges products) := by
  induction edges generalizing products with
  | nil => rfl
  | cons edge edges ih =>
    simp only [GetPostsByTopic_loop_checked, GetPostsByTopic_loop, typeAssertMap_commaOk, pure_bind]
    cases hm : asMap edge with
    | none => simp [ih]
    | some edgeMap =>
      cases hn : asMap (mapIndex edgeMap "node") with
      | none => simp [ih, hn, nilableIndex_some]
      | some node =>
        simp [ih, hn, nilableIndex_some, GetPostsByTopic_thumbnailUrl_checked_eq]
        rfl

theorem GetPostsByTopic_extract_checked_eq (fmtFloat : Float64 → String) (data : Option GoMap) :
    GetPostsByTopic_extract_checked fmtFloat data
      = Except.ok (GetPostsByTopic_extract fmtFloat (data.getD [])) := by
  simp only [GetPostsByTopic_extract_checked, GetPostsByTopic_extract, typeAssertMap_commaOk,
    typeAssertSlice_commaOk, pure_bind, nilableIndex_getD data, GetPostsByTopic_loop_checked_eq]
  cases hd : asMap (mapIndex (data.getD []) "data") with
  | none => rfl
  | some dataMap =>
    cases hp : asMap (mapIndex dataMap "posts") with
    | none =>
      simp [hp, nilableIndex_some]
      rfl
    | some posts =>
      cases he : asSlice (mapIndex posts "edges") with
      | none =>
        simp [hp, he, nilableIndex_some]
        rfl
      | some edges => simp [hp, he, nilableIndex_some, GetPostsByTopic_loop_checked_eq]

theorem GetTopProductsByDate_loop_checked_eq (fmtFloat : Float64 → String) (edges : List JSON)
    (products : List Product) :
    GetTopProductsByDate_loop_checked fmtFloat edges products
      = Except.ok (GetTopProductsByDate_loop fmtFloat edges products) := by
  induction edges generalizing products with
  | nil => rfl
  | cons edge edges ih =>
    simp only [GetTopProductsByDate_loop_checked, GetTopProductsByDate_loop, typeAssertMap_commaOk, pure_bind]
    cases hm : asMap edge with
    | none => simp [ih]
    | some edgeMap =>
      cases hn : asMap (mapIndex edgeMap "node") with
      | none => simp [ih, hn, nilableIndex_some]
      | some node =>
        simp [ih, hn, nilableIndex_some]
        rfl

theorem GetTopProductsByDate_extract_checked_eq (fmtFloat : Float64 → String) (data : Option GoMap) :
    GetTopProductsByDate_extract_checked fmtFloat data
      = Except.ok (GetTopProductsByDate_extract fmtFloat (data.getD [])) := by
  simp only [GetTopProductsByDate_extract_checked, GetTopProductsByDate_extract, typeAssertMap_commaOk,
    typeAssertSlice_commaOk, pure_bind, nilableIndex_getD data, GetTopProductsByDate_loop_checked_eq]
  cases hd : asMap (mapIndex (data.getD []) "data") with
  | none => rfl
  | some dataMap =>
    cases hp : asMap (mapIndex dataMap "posts") with
    | none =>
      simp [hp, nilableIndex_some]
      rfl
    | some posts =>
      cases he : asSlice (mapIndex posts "edges") with
      | none =>
        simp [hp, he, nilableIndex_some]
        rfl
      | some edges => simp [hp, he, nilableIndex_some, GetTopProductsByDate_loop_checked_eq]

theorem GetProductsByRankByDate_loop_checked_eq (fmtFloat : Float64 → String) (edges : List JSON)
    (products : List Product) :
    GetProductsByRankByDate_loop_checked fmtFloat edges products
      = Except.ok (GetProductsByRankByDate_loop fmtFloat edges products) := by
  induction edges generalizing products with
  | nil => rfl
  | cons edge edges ih =>
    simp only [GetProductsByRankByDate_loop_checked, GetProductsByRankByDate_loop, typeAssertMap_commaOk, pure_bind]
    cases hm : asMap edge with
    | none => simp [ih]
    | some edgeMap =>
      cases hn : asMap (mapIndex edgeMap "node") with
      | none => simp [ih, hn, nilableIndex_some]
      | some node =>
        simp [ih, hn, nilableIndex_some]
        rfl

theorem GetProductsByRankByDate_extract_checked_eq (fmtFloat : Float64 → String) (data : Option GoMap) :
    GetProductsByRankByDate_extract_checked fmtFloat data
      = Except.ok (GetProductsByRankByDate_extract fmtFloat (data.getD [])) := by
  simp only [GetProductsByRankByDate_extract_checked, GetProductsByRankByDate_extract, typeAssertMap_commaOk,
    typeAssertSlice_commaOk, pure_bind, nilableIndex_getD data, GetProductsByRankByDate_loop_checked_eq]
  cases hd : asMap (mapIndex (data.getD []) "data") with
  | none => rfl
  | some dataMap =>
    cases hp : asMap (mapIndex dataMap "posts") with
    | none =>
      simp [hp, nilableIndex_some]
      rfl
    | some posts =>
      cases he : asSlice (mapIndex posts "edges") with
      | none =>
        simp [hp, he, nilableIndex_some]
        rfl
      | some edges => simp [hp, he, nilableIndex_some, GetProductsByRankByDate_loop_checked_eq]

/-- C19. For every response of any shape, a nil top-level map included, the
run of the lines after the transport call of each of the five operations, in
the embedding where a failed single-form type assertion panics, ends without
a panic and returns what the extraction returns: every type assertion of those
lines is in the comma-ok form and every map is only read. In the single form
the same assertions panic on every value of another type. Whatever the
transport answers, each operation returns either an error with no result or a
result with a nil error. -/
theorem C19_extraction_never_panics {W : Type} (fmtFloat : Float64 → String)
    (fetchData : Fetch W) (ph : ProductHunt) (slug topic date : String) (limit : Int)
    (w : W) (data : Option GoMap) :
    GetDaily_extract_checked fmtFloat data
        = Except.ok (GetDaily_extract fmtFloat (data.getD []))
    ∧ GetProductDetails_extract_checked fmtFloat data
        = Except.ok (GetProductDetails_extract fmtFloat (data.getD []))
    ∧ GetPostsByTopic_extract_checked fmtFloat data
        = Except.ok (GetPostsByTopic_extract fmtFloat (data.getD []))
    ∧ GetTopProductsByDate_extract_checked fmtFloat data
        = Except.ok (GetTopProductsByDate_extract fmtFloat (data.getD []))
    ∧ GetProductsByRankByDate_extract_checked fmtFloat data
        = Except.ok (GetProductsByRankByDate_extract fmtFloat (data.getD []))
    ∧ (∀ v : JSON, asMap v = none →
        typeAssertMap AssertForm.single v = Except.error Panic.interfaceConversion)
    ∧ (∀ v : JSON, asSlice v = none →
        typeAssertSlice AssertForm.single v = Except.error Panic.interfaceConversion)
    ∧ ((∃ err, (GetDaily fmtFloat fetchData ph w).1 = ([], some err))
      ∨ ∃ products, (GetDaily fmtFloat fetchData ph w).1 = (products, none))
    ∧ ((∃ err, (GetProductDetails fmtFloat fetchData ph slug w).1 = (none, some err))
      ∨ (GetProductDetails fmtFloat fetchData ph slug w).1 = (none, none)
      ∨ ∃ p, (GetProductDetails fmtFloat fetchData ph slug w).1 = (some p, none))
    ∧ ((∃ err, (GetPostsByTopic fmtFloat fetchData ph topic w).1 = ([], some err))
      ∨ ∃ products, (GetPostsByTopic fmtFloat fetchData ph topic w).1 = (products, none))
    ∧ ((∃ err, (GetTopProductsByDate fmtFloat fetchData ph date w).1 = ([], some err))
      ∨ ∃ products, (GetTopProductsByDate fmtFloat fetchData ph date w).1 = (products, none))
    ∧ ((∃ err, (GetProductsByRankByDate fmtFloat fetchData ph date limit w).1 = ([], some err))
      ∨ ∃ products,
          (GetProductsByRankByDate fmtFloat fetchData ph date limit w).1 = (products, none)) := by
  refine ⟨GetDaily_extract_checked_eq fmtFloat data,
    GetProductDetails_extract_checked_eq fmtFloat data,
    GetPostsByTopic_extract_checked_eq fmtFloat data,
    GetTopProductsByDate_extract_checked_eq fmtFloat data,
    GetProductsByRankByDate_extract_checked_eq fmtFloat data, ?_, ?_,
    GetDaily_cases fmtFloat fetchData ph w, GetProductDetails_cases fmtFloat fetchData ph slug w,
    GetPostsByTopic_cases fmtFloat fetchData ph topic w,
    GetTopProductsByDate_cases fmtFloat fetchData ph date w,
    GetProductsByRankByDate_cases fmtFloat fetchData ph date limit w⟩
  · intro v hv
    simp [typeAssertMap, hv]
    rfl
  · intro v hv
    simp [typeAssertSlice, hv]
    rfl

/-- C19 at the response `{"data":{"posts":{"edges":[7,{"node":"x"},{"node":{"id":"1",
"name":"A","tagline":"t"}}]}}}`, whose edges hold a number and a node that is a
string: the run of `GetPostsByTopic` ends without a panic, with one Product. -/
theorem C19_extraction_never_panics_witness :
    GetPostsByTopic_extract_checked sampleFmtFloat (some (envelope oddEdges))
      = Except.ok
          ([{ ID := "1", Name := "A", Slug := "<nil>", Tagline := "t",
              Description := "<nil>", Website := "<nil>", URL := "<nil>",
              Thumbnail := "" }], none) :=
  (C19_extraction_never_panics sampleFmtFloat (respond (envelope oddEdges)) sampleClient
    "some-slug" "tech" "2024-01-01" 5 () (some (envelope oddEdges))).2.2.1

end Producthunt
